import Mathlib

/-!
Verification development for the BCF reader (`bcfplugin/rdwr/reader.py`) and
the change-tracked document model (`src/bcf/project.py`).

The XML files of a BCF archive are parsed by the external `xmlschema` library
into nested python dictionaries; the reader's builder functions walk those
dictionaries.  We embed that record tree as the inductive type `XmlValue`
(python `None` is `XmlValue.null`) and python exceptions as an
`Except PyError` monad, keeping the distinction between `KeyError`
(dictionary subscript on a missing key), `ValueError`, `TypeError`,
`AttributeError` and OS level errors, because the reader's control flow
branches on the exception class (`except KeyError` in `readBcfFile`).

Abstractions, stated once here:
* `UUID(x)` is modelled by `pyUUID`, which keeps the guid string as-is;
  the hex-format validation of the python `uuid` module is elided (no claim
  depends on a malformed guid string), while its `TypeError` on non-string
  input is kept.
* `dateutil.parser.parse(x)` is modelled by `parseDate`, which keeps the
  string as the parsed date; format validation is elided (no claim depends
  on it), the `TypeError` on non-string input is kept.
* File system, zip extraction and schema download/validation are external
  collaborators; an extracted archive is the value `BcfArchive` below, and
  each validator verdict is a boolean field of it.
* Python object identity and in-place mutation are rendered in value style:
  an updated object replaces the old value at its position.
-/

/-- Embedding of the record tree produced by `xmlschema.to_dict`: nested
python dictionaries, lists and scalars.  `null` is python `None`. -/
inductive XmlValue where
  | null : XmlValue
  | bool (b : Bool) : XmlValue
  | int (n : Int) : XmlValue
  | str (s : String) : XmlValue
  | list (xs : List XmlValue) : XmlValue
  | dict (kvs : List (String × XmlValue)) : XmlValue
deriving Repr

/-- Python exception classes distinguished by the reader's control flow. -/
inductive PyError where
  | keyError (key : String) : PyError
  | valueError (msg : String) : PyError
  | typeError (msg : String) : PyError
  | attributeError (msg : String) : PyError
  | osError (msg : String) : PyError
deriving Repr, DecidableEq

namespace XmlValue

/-- Python truthiness of a record-tree value (`if x:`). -/
def truthy : XmlValue → Bool
  | .null => false
  | .bool b => b
  | .int n => n != 0
  | .str s => s != ""
  | .list xs => !xs.isEmpty
  | .dict kvs => !kvs.isEmpty

/-- First value bound to `key` in an association list (python dict lookup). -/
def lookupKey (kvs : List (String × XmlValue)) (key : String) : Option XmlValue :=
  match kvs with
  | [] => none
  | (k, v) :: rest => if k = key then some v else lookupKey rest key

/-- Python `key in d` for a record-tree value.  The reader only applies it to
dictionaries; on every other value the model answers `false` (python's `in`
on lists/strings means element/substring containment, which the reader never
exercises with its string keys). -/
def hasKey : XmlValue → String → Bool
  | .dict kvs, key => (lookupKey kvs key).isSome
  | _, _ => false

/-- Python subscript `d[key]`: the bound value, `KeyError` on a missing key,
`TypeError` when `d` is not a dictionary. -/
def getItem : XmlValue → String → Except PyError XmlValue
  | .dict kvs, key =>
      match lookupKey kvs key with
      | some v => .ok v
      | none => .error (.keyError key)
  | _, _ => .error (.typeError "value is not subscriptable by string")

end XmlValue

open XmlValue

/-- Source `reader.getOptionalFromDict`: `d[desiredValue]` when the key is
present, the caller-supplied default otherwise.  On a non-dictionary the
membership test is `false`, so the default is returned. -/
def getOptionalFromDict (d : XmlValue) (desiredValue : String) (empty : XmlValue) : XmlValue :=
  match d with
  | .dict kvs =>
      match lookupKey kvs desiredValue with
      | some v => v
      | none => empty
  | _ => empty

/-- Python `UUID(x)` (see the abstraction note in the file header): keeps the
string, `TypeError` on non-string input. -/
def pyUUID : XmlValue → Except PyError String
  | .str s => .ok s
  | _ => .error (.typeError "one of the hex, bytes, bytes_le, fields, or int arguments must be given")

/-- Python `dateutil.parser.parse(x)` (see the abstraction note in the file
header): keeps the string as the parsed date, `TypeError` on non-string
input. -/
def parseDate : XmlValue → Except PyError String
  | .str s => .ok s
  | _ => .error (.typeError "parser must be a string or character stream")

/-- Sequential python list comprehension `[f x for x in xs]` over fallible
`f`: the first raised exception aborts the whole comprehension. -/
def mapExcept (f : α → Except PyError β) : List α → Except PyError (List β)
  | [] => .ok []
  | a :: as => do
      let b ← f a
      let bs ← mapExcept f as
      .ok (b :: bs)

/-- Python iteration over a record-tree value.  The reader iterates only the
list values produced by `xmlschema` for repeated elements; every other value
is rejected with a `TypeError` in the model. -/
def pyToList : XmlValue → Except PyError (List XmlValue)
  | .list xs => .ok xs
  | _ => .error (.typeError "value is not iterable")

/-- A python attribute that the reader either leaves as the raw (falsy)
record-tree value it found — e.g. `None` — or replaces by a decoded object:
`viewpointRef = getOptionalFromDict(...); if viewpointRef: viewpointRef =
ViewpointReference(...)` leaves the raw value in the falsy branch. -/
inductive PyVal (α : Type) where
  | raw (v : XmlValue) : PyVal α
  | obj (a : α) : PyVal α
deriving Repr

/-- Modelled from the spec: class `Uri` (`rdwr/uri.py` is not under `src/`);
a plain wrapper around the locator value it is constructed with. -/
structure Uri where
  uri : XmlValue
deriving Repr

/-! ## Entity classes

The constructed classes live in `rdwr/markup.py`, `rdwr/topic.py`,
`rdwr/viewpoint.py`, `rdwr/threedvector.py` and `rdwr/project.py`, which are
not under `src/`; each structure below is modelled from the spec (§3) as a
plain record of the arguments the builder passes to the class constructor,
in the source's argument order. -/

/-- Modelled from the spec: class `Component` (`rdwr/viewpoint.py` is not
under `src/`). -/
structure Component where
  ifcId : XmlValue
  originatingSystem : XmlValue
  authoringToolId : XmlValue
deriving Repr

/-- Modelled from the spec: class `ComponentColour` (`rdwr/viewpoint.py` is
not under `src/`). -/
structure ComponentColour where
  colour : XmlValue
  components : List Component
deriving Repr

/-- Modelled from the spec: class `ViewSetupHints` (`rdwr/viewpoint.py` is
not under `src/`). -/
structure ViewSetupHints where
  openingsVisible : XmlValue
  spacesVisible : XmlValue
  spaceBoundariesVisible : XmlValue
deriving Repr

/-- Modelled from the spec: class `Components` (`rdwr/viewpoint.py` is not
under `src/`); the component-visibility/selection/coloring set of a
viewpoint. -/
structure Components where
  defaultVisibility : XmlValue
  exceptions : List Component
  selection : List Component
  viewSetupHints : Option ViewSetupHints
  componentColours : List (Option ComponentColour)
deriving Repr

/-- Modelled from the spec: class `Point` (`rdwr/threedvector.py` is not
under `src/`). -/
structure Point where
  x : XmlValue
  y : XmlValue
  z : XmlValue
deriving Repr

/-- Modelled from the spec: class `Direction` (`rdwr/threedvector.py` is not
under `src/`). -/
structure Direction where
  x : XmlValue
  y : XmlValue
  z : XmlValue
deriving Repr

/-- Modelled from the spec: class `Line` (`rdwr/threedvector.py` is not
under `src/`). -/
structure Line where
  startPoint : Point
  endPoint : Point
deriving Repr

/-- Modelled from the spec: class `ClippingPlane` (`rdwr/threedvector.py` is
not under `src/`). -/
structure ClippingPlane where
  location : Point
  direction : Direction
deriving Repr

/-- Modelled from the spec: enumeration `BitmapFormat` (`rdwr/viewpoint.py`
is not under `src/`). -/
inductive BitmapFormat where
  | png
  | jpg
deriving Repr, DecidableEq

/-- Modelled from the spec: class `Bitmap` (`rdwr/viewpoint.py` is not under
`src/`). -/
structure Bitmap where
  format : BitmapFormat
  reference : XmlValue
  location : Point
  normal : Direction
  up : Direction
  height : XmlValue
deriving Repr

/-- Modelled from the spec: class `OrthogonalCamera` (`rdwr/viewpoint.py` is
not under `src/`). -/
structure OrthogonalCamera where
  viewPoint : Point
  direction : Direction
  upVector : Direction
  viewWorldScale : XmlValue
deriving Repr

/-- Modelled from the spec: class `PerspectiveCamera` (`rdwr/viewpoint.py`
is not under `src/`). -/
structure PerspectiveCamera where
  viewPoint : Point
  direction : Direction
  upVector : Direction
  fieldOfView : XmlValue
deriving Repr

/-- Modelled from the spec: class `Viewpoint` (`rdwr/viewpoint.py` is not
under `src/`): identifier plus optional cameras, optional component set,
lines, clipping planes and bitmaps. -/
structure Viewpoint where
  xmlId : String
  components : Option Components
  oCamera : Option OrthogonalCamera
  pCamera : Option PerspectiveCamera
  lines : List Line
  clippingPlanes : List ClippingPlane
  bitmaps : List Bitmap
deriving Repr

/-- Modelled from the spec: class `ViewpointReference` (`rdwr/markup.py` is
not under `src/`): identifier, optional viewpoint-file and snapshot
locators, ordering index (sentinel -1 = unspecified) and the lazily
attached resolved `Viewpoint` (absent until `readBcfFile` attaches it). -/
structure ViewpointReference where
  xmlId : String
  file : PyVal Uri
  snapshot : PyVal Uri
  index : XmlValue
  viewpoint : Option Viewpoint
deriving Repr

/-- Modelled from the spec: the `ViewpointReference(id=...)` call in
`buildComment`, with every other constructor argument left at its class
default (no locators, unspecified index, no resolved viewpoint). -/
def rawViewpointReference (gid : String) : ViewpointReference :=
  { xmlId := gid, file := .raw .null, snapshot := .raw .null,
    index := .int (-1), viewpoint := none }

/-- Modelled from the spec: class `Comment` (`rdwr/markup.py` is not under
`src/`). -/
structure Comment where
  xmlId : String
  date : String
  author : XmlValue
  text : XmlValue
  viewpoint : PyVal ViewpointReference
  modifiedDate : PyVal String
  modifiedAuthor : XmlValue
deriving Repr

/-- Modelled from the spec: class `BimSnippet` (`rdwr/topic.py` is not under
`src/`). -/
structure BimSnippet where
  snippetType : XmlValue
  isExternal : XmlValue
  reference : Uri
  referenceSchema : Uri
deriving Repr

/-- Modelled from the spec: class `DocumentReference` (`rdwr/topic.py` is
not under `src/`). -/
structure DocumentReference where
  guid : PyVal String
  isExternal : XmlValue
  reference : PyVal Uri
  description : XmlValue
deriving Repr

/-- Modelled from the spec: class `Topic` (`rdwr/topic.py` is not under
`src/`); fields in the order of the `Topic(...)` call in `buildTopic`. -/
structure Topic where
  xmlId : String
  title : XmlValue
  date : String
  author : XmlValue
  topicType : XmlValue
  status : XmlValue
  referenceLinks : XmlValue
  docRefs : List DocumentReference
  priority : XmlValue
  index : XmlValue
  labels : XmlValue
  modifiedDate : PyVal String
  modifiedAuthor : XmlValue
  dueDate : PyVal String
  assignee : XmlValue
  description : XmlValue
  stage : XmlValue
  relatedTopics : List String
  bimSnippet : Option BimSnippet
deriving Repr

/-- Modelled from the spec: class `HeaderFile` (`rdwr/markup.py` is not
under `src/`). -/
structure HeaderFile where
  ifcProjectId : XmlValue
  ifcSpatialStructureElement : XmlValue
  isExternal : XmlValue
  filename : XmlValue
  time : PyVal String
  reference : PyVal Uri
deriving Repr

/-- Modelled from the spec: class `Header` (`rdwr/markup.py` is not under
`src/`). -/
structure Header where
  files : List HeaderFile
deriving Repr

/-- Modelled from the spec: class `Markup` (`rdwr/markup.py` is not under
`src/`): one topic, optional header, comments and viewpoint references.
The parent back-reference (`containingObject`) is kept out of the value
model (spec §9 renders back references as identifier lookups). -/
structure Markup where
  topic : Topic
  header : Option Header
  comments : List Comment
  viewpoints : List ViewpointReference
deriving Repr

/-- Modelled from the spec: class `Project` of `rdwr/project.py` (not under
`src/`): identifier, display name, extension-schema locator and the ordered
topic list. -/
structure Project where
  xmlId : String
  name : XmlValue
  extSchemaSrc : XmlValue
  topicList : List Markup
deriving Repr

/-! ## Builder functions (source `reader.py`)

Each `buildX` below is the source function of the same name, translated
statement by statement; the monadic sequencing preserves the order in which
the python code evaluates subscripts and parses, so the first raised
exception of the model is the first raised exception of the source.  The
file-level builders (`buildMarkup`, `buildViewpoint`, `buildProject`) take
the already-parsed record tree; opening and schema-validating the file is
the external validator boundary (spec §2, §6). -/

/-- The recurring `if x is not None: x = dateutil.parser.parse(x)` step of
the builders: python `None` is kept as-is, anything else is parsed. -/
def parseDateUnlessNone (v : XmlValue) : Except PyError (PyVal String) :=
  match v with
  | .null => pure (PyVal.raw .null)
  | v => do
      let d ← parseDate v
      pure (PyVal.obj d)

/-- The recurring `if x: x = parse(x)` step of the builders (truthiness,
not an is-`None` test): a falsy value is kept as-is, a truthy one is
parsed. -/
def parseDateIfTruthy (v : XmlValue) : Except PyError (PyVal String) :=
  if truthy v then do
    let d ← parseDate v
    pure (PyVal.obj d)
  else
    pure (PyVal.raw v)

/-- The `viewpointRef` step of `buildComment`: a truthy `Viewpoint` node is
replaced by a fresh, identifier-only `ViewpointReference`; a falsy one is
kept as the raw value. -/
def buildCommentViewpointRef (v : XmlValue) : Except PyError (PyVal ViewpointReference) :=
  if truthy v then do
    let g ← getItem v "@Guid"
    let gid ← pyUUID g
    pure (PyVal.obj (rawViewpointReference gid))
  else
    pure (PyVal.raw v)

/-- Source `reader.buildComment`. -/
def buildComment (commentDict : XmlValue) : Except PyError Comment := do
  let idV ← getItem commentDict "@Guid"
  let id ← pyUUID idV
  let dateV ← getItem commentDict "Date"
  let commentDate ← parseDate dateV
  let commentAuthor ← getItem commentDict "Author"
  let modifiedAuthor := getOptionalFromDict commentDict "ModifiedAuthor" (.str "")
  let modifiedDate ← parseDateUnlessNone (getOptionalFromDict commentDict "ModifiedDate" .null)
  let commentString ← getItem commentDict "Comment"
  let viewpointRef ← buildCommentViewpointRef (getOptionalFromDict commentDict "Viewpoint" .null)
  .ok { xmlId := id, date := commentDate, author := commentAuthor,
        text := commentString, viewpoint := viewpointRef,
        modifiedDate := modifiedDate, modifiedAuthor := modifiedAuthor }

/-- Source `reader.buildBimSnippet`. -/
def buildBimSnippet (snippetDict : XmlValue) : Except PyError BimSnippet := do
  let reference ← getItem snippetDict "Reference"
  let referenceSchema ← getItem snippetDict "ReferenceSchema"
  let snippetType ← getItem snippetDict "@SnippetType"
  let isExternal := getOptionalFromDict snippetDict "@isExternal" (.bool false)
  .ok { snippetType := snippetType, isExternal := isExternal,
        reference := ⟨reference⟩, referenceSchema := ⟨referenceSchema⟩ }

/-- Source `reader.buildDocRef`. -/
def buildDocRef (docDict : XmlValue) : Except PyError DocumentReference := do
  let docUriV := getOptionalFromDict docDict "ReferencedDocument" .null
  let docUri := if truthy docUriV then PyVal.obj (Uri.mk docUriV) else PyVal.raw docUriV
  let docName := getOptionalFromDict docDict "Description" .null
  let docIdV := getOptionalFromDict docDict "@Guid" .null
  let docId ←
    if truthy docIdV then do pure (PyVal.obj (← pyUUID docIdV))
    else pure (PyVal.raw docIdV)
  let docExternal := getOptionalFromDict docDict "@isExternal" (.bool false)
  .ok { guid := docId, isExternal := docExternal, reference := docUri,
        description := docName }

/-- The `BimSnippet` step of `buildTopic`: built only when the key is
present (an `in` test, not a truthiness test). -/
def buildOptionalBimSnippet (topicDict : XmlValue) : Except PyError (Option BimSnippet) :=
  if hasKey topicDict "BimSnippet" then do
    let sd ← getItem topicDict "BimSnippet"
    let bs ← buildBimSnippet sd
    pure (some bs)
  else
    pure none

/-- One entry of the `RelatedTopic` comprehension of `buildTopic`:
`UUID(relTopic["@Guid"])`. -/
def buildRelatedTopicId (relTopic : XmlValue) : Except PyError String := do
  let g ← getItem relTopic "@Guid"
  pyUUID g

/-- Source `reader.buildTopic`. -/
def buildTopic (topicDict : XmlValue) : Except PyError Topic := do
  let idV ← getItem topicDict "@Guid"
  let id ← pyUUID idV
  let title ← getItem topicDict "Title"
  let creationDateV ← getItem topicDict "CreationDate"
  let topicDate ← parseDate creationDateV
  let topicAuthor ← getItem topicDict "CreationAuthor"
  let topicStatus := getOptionalFromDict topicDict "@TopicStatus" (.str "")
  let topicType := getOptionalFromDict topicDict "@TopicType" (.str "")
  let topicPriority := getOptionalFromDict topicDict "Priority" (.str "")
  let modifiedDate ← parseDateUnlessNone (getOptionalFromDict topicDict "ModifiedDate" .null)
  let modifiedAuthor := getOptionalFromDict topicDict "ModifiedAuthor" (.str "")
  let index := getOptionalFromDict topicDict "Index" (.int (-1))
  let dueDate ← parseDateUnlessNone (getOptionalFromDict topicDict "DueDate" .null)
  let assignee := getOptionalFromDict topicDict "AssignedTo" (.str "")
  let stage := getOptionalFromDict topicDict "Stage" (.str "")
  let description := getOptionalFromDict topicDict "Description" (.str "")
  let bimSnippet ← buildOptionalBimSnippet topicDict
  let labelList := getOptionalFromDict topicDict "Labels" (.list [])
  let docRefListV := getOptionalFromDict topicDict "DocumentReference" (.list [])
  let docRefList ← pyToList docRefListV
  let docRefs ← mapExcept buildDocRef docRefList
  let relatedListV := getOptionalFromDict topicDict "RelatedTopic" (.list [])
  let relatedList ← pyToList relatedListV
  let relatedTopics ← mapExcept buildRelatedTopicId relatedList
  let referenceLinks := getOptionalFromDict topicDict "ReferenceLink" (.list [])
  .ok { xmlId := id, title := title, date := topicDate, author := topicAuthor,
        topicType := topicType, status := topicStatus,
        referenceLinks := referenceLinks, docRefs := docRefs,
        priority := topicPriority, index := index, labels := labelList,
        modifiedDate := modifiedDate, modifiedAuthor := modifiedAuthor,
        dueDate := dueDate, assignee := assignee, description := description,
        stage := stage, relatedTopics := relatedTopics,
        bimSnippet := bimSnippet }

/-- Source `reader.buildFile`. -/
def buildFile (fileDict : XmlValue) : Except PyError HeaderFile := do
  let filename := getOptionalFromDict fileDict "Filename" (.str "")
  let filedateV := getOptionalFromDict fileDict "Date" .null
  let filedate ← parseDateIfTruthy filedateV
  let referenceV := getOptionalFromDict fileDict "Reference" (.str "")
  let reference := if truthy referenceV then PyVal.obj (Uri.mk referenceV)
                   else PyVal.raw referenceV
  let ifcProjectId := getOptionalFromDict fileDict "@IfcProject" (.str "")
  let ifcSpatialStructureElement :=
    getOptionalFromDict fileDict "@IfcSpatialStructureElement" (.str "")
  let isExternal := getOptionalFromDict fileDict "@isExternal" (.bool true)
  .ok { ifcProjectId := ifcProjectId,
        ifcSpatialStructureElement := ifcSpatialStructureElement,
        isExternal := isExternal, filename := filename, time := filedate,
        reference := reference }

/-- Python `x is not None` test used by the header-file comprehension. -/
def XmlValue.isNull : XmlValue → Bool
  | .null => true
  | _ => false

/-- Source `reader.buildHeader`: builds every non-`None` entry of the `File`
list. -/
def buildHeader (headerDict : XmlValue) : Except PyError Header := do
  let filelistV := getOptionalFromDict headerDict "File" (.list [])
  let filelist ← pyToList filelistV
  let files ← mapExcept buildFile (filelist.filter (fun f => !f.isNull))
  .ok { files := files }

/-- Source `reader.buildViewpointReference`.  The `viewpoint` attribute of
the new reference is the class default: no resolved viewpoint. -/
def buildViewpointReference (viewpointDict : XmlValue) : Except PyError ViewpointReference := do
  let idV ← getItem viewpointDict "@Guid"
  let id ← pyUUID idV
  let viewpointFileV := getOptionalFromDict viewpointDict "Viewpoint" .null
  let viewpointFile := if truthy viewpointFileV then PyVal.obj (Uri.mk viewpointFileV)
                       else PyVal.raw viewpointFileV
  let snapshotFileV := getOptionalFromDict viewpointDict "Snapshot" .null
  let snapshotFile := if truthy snapshotFileV then PyVal.obj (Uri.mk snapshotFileV)
                      else PyVal.raw snapshotFileV
  let index := getOptionalFromDict viewpointDict "Index" (.int (-1))
  .ok { xmlId := id, file := viewpointFile, snapshot := snapshotFile,
        index := index, viewpoint := none }

/-- Modelled from the spec: `Markup.getViewpointRefByGuid` (`rdwr/markup.py`
is not under `src/`): a pure lookup by identifier equality over the
just-built viewpoint-reference list, returning the first reference with the
given identifier, or python `None` when no identifier matches (spec §4.2,
§4.3). -/
def getViewpointRefByGuid (viewpoints : List ViewpointReference) (guid : String) :
    Option ViewpointReference :=
  viewpoints.find? (fun vr => vr.xmlId == guid)

/-- The cross-reference pass at the end of `buildMarkup` (source lines
384-388), for one comment: a comment with a truthy raw viewpoint reference
has it replaced by the result of `getViewpointRefByGuid` — the markup's own
reference object when the identifier matches, python `None` otherwise.  The
pass is total: it raises nothing. -/
def resolveCommentViewpoint (viewpoints : List ViewpointReference) (comment : Comment) :
    Comment :=
  match comment.viewpoint with
  | .obj vr =>
      { comment with viewpoint :=
          match getViewpointRefByGuid viewpoints vr.xmlId with
          | some found => .obj found
          | none => .raw .null }
  | .raw _ => comment
      -- a raw value stored by `buildComment` is falsy, so the source's
      -- `if comment.viewpoint:` skips it

/-- The comment-list stage of `buildMarkup` (source lines 365-366). -/
def buildCommentList (markupDict : XmlValue) : Except PyError (List Comment) := do
  let commentList ← pyToList (getOptionalFromDict markupDict "Comment" (.list []))
  mapExcept buildComment commentList

/-- The viewpoint-reference stage of `buildMarkup` (source lines 377-379). -/
def buildViewpointRefList (markupDict : XmlValue) : Except PyError (List ViewpointReference) := do
  let viewpointList ← pyToList (getOptionalFromDict markupDict "Viewpoints" (.list []))
  mapExcept buildViewpointReference viewpointList

/-- Python `len(x)` for the sized record-tree values; `TypeError`
otherwise. -/
def pyLen : XmlValue → Except PyError Nat
  | .str s => .ok s.length
  | .list xs => .ok xs.length
  | .dict kvs => .ok kvs.length
  | _ => .error (.typeError "object has no len")

/-- The header step of `buildMarkup`: `if headerDict and len(headerDict)
> 0` — an empty header element is tolerated and yields no header. -/
def buildOptionalHeader (headerDict : XmlValue) : Except PyError (Option Header) :=
  if truthy headerDict then do
    let n ← pyLen headerDict
    if n > 0 then do
      let h ← buildHeader headerDict
      pure (some h)
    else
      pure none
  else
    pure none

/-- Source `reader.buildMarkup` on the parsed markup record: comments, the
mandatory `Topic` (a plain subscript — its absence raises `KeyError`), the
optional header, the viewpoint references, then the cross-reference pass
substituting each comment's raw viewpoint reference. -/
def buildMarkup (markupDict : XmlValue) : Except PyError Markup := do
  let comments ← buildCommentList markupDict
  let topicDict ← getItem markupDict "Topic"
  let topic ← buildTopic topicDict
  let headerDict := getOptionalFromDict markupDict "Header" .null
  let header ← buildOptionalHeader headerDict
  let viewpoints ← buildViewpointRefList markupDict
  let resolvedComments := comments.map (resolveCommentViewpoint viewpoints)
  .ok { topic := topic, header := header, comments := resolvedComments,
        viewpoints := viewpoints }

/-- Source `reader.buildViewSetupHints`. -/
def buildViewSetupHints (vshDict : XmlValue) : ViewSetupHints :=
  let spacesVisible := getOptionalFromDict vshDict "@SpacesVisible" (.bool false)
  let spaceBoundariesVisible :=
    getOptionalFromDict vshDict "@SpaceBoundariesVisible" (.bool false)
  let openingsVisible := getOptionalFromDict vshDict "@OpeningsVisible" (.bool false)
  { openingsVisible := openingsVisible, spacesVisible := spacesVisible,
    spaceBoundariesVisible := spaceBoundariesVisible }

/-- Source `reader.buildComponent`. -/
def buildComponent (componentDict : XmlValue) : Component :=
  let id := getOptionalFromDict componentDict "@IfcGuid" .null
  let authoringToolId := getOptionalFromDict componentDict "AuthoringToolId" (.str "")
  let originatingSystem := getOptionalFromDict componentDict "OriginatingSystem" (.str "")
  { ifcId := id, originatingSystem := originatingSystem,
    authoringToolId := authoringToolId }

/-- Source `reader.buildComponentColour`: a `ComponentColour` is constructed
only when the colour record carries a truthy `@Color` value; the mandatory
`Component` subscript in that branch may raise `KeyError`. -/
def buildComponentColour (ccDict : XmlValue) : Except PyError (Option ComponentColour) := do
  let colour := getOptionalFromDict ccDict "@Color" .null
  if truthy colour then do
    let colourComponentListV ← getItem ccDict "Component"
    let colourComponentList ← pyToList colourComponentListV
    .ok (some { colour := colour,
                components := colourComponentList.map buildComponent })
  else
    .ok none

/-- The recurring `xs = list(); if node: xs = build(...)` pattern: the list
is built only when its node is truthy, and is empty otherwise. -/
def listWhenTruthy {α : Type} (cond : Bool) (build : Except PyError (List α)) :
    Except PyError (List α) :=
  if cond then build else pure []

/-- The `Component` sub-list pattern of `buildComponents`
(`d["Component"]`, then one `buildComponent` per entry): used for both the
`Selection` and the `Exceptions` node. -/
def buildComponentList (d : XmlValue) : Except PyError (List Component) := do
  let componentListV ← getItem d "Component"
  let componentList ← pyToList componentListV
  pure (componentList.map buildComponent)

/-- The `Coloring` step of `buildComponents`: the mandatory `Color` list
(`colourComponentDict["Color"]`), one `buildComponentColour` per entry. -/
def buildColourList (colourComponentDict : XmlValue) : Except PyError (List (Option ComponentColour)) := do
  let colourComponentListV ← getItem colourComponentDict "Color"
  let colourComponentList ← pyToList colourComponentListV
  mapExcept buildComponentColour colourComponentList

/-- Source `reader.buildComponents`. -/
def buildComponents (componentsDict : XmlValue) : Except PyError Components := do
  let vshDict := getOptionalFromDict componentsDict "ViewSetupHints" .null
  let vsh := if truthy vshDict then some (buildViewSetupHints vshDict) else none
  let componentDict := getOptionalFromDict componentsDict "Selection" .null
  let sel ← listWhenTruthy (truthy componentDict) (buildComponentList componentDict)
  let visibilityDict ← getItem componentsDict "Visibility"
  let defaultVisibility := getOptionalFromDict visibilityDict "@DefaultVisibility" (.bool true)
  let exceptionDict := getOptionalFromDict visibilityDict "Exceptions" .null
  let exceptions ← listWhenTruthy (truthy exceptionDict) (buildComponentList exceptionDict)
  let colourComponentDict := getOptionalFromDict componentsDict "Coloring" .null
  let componentColours ←
    listWhenTruthy (truthy colourComponentDict) (buildColourList colourComponentDict)
  .ok { defaultVisibility := defaultVisibility, exceptions := exceptions,
        selection := sel, viewSetupHints := vsh,
        componentColours := componentColours }

/-- Source `reader.buildPoint`. -/
def buildPoint (pointDict : XmlValue) : Except PyError Point := do
  let x ← getItem pointDict "X"
  let y ← getItem pointDict "Y"
  let z ← getItem pointDict "Z"
  .ok { x := x, y := y, z := z }

/-- Source `reader.buildDirection`. -/
def buildDirection (dirDict : XmlValue) : Except PyError Direction := do
  let x ← getItem dirDict "X"
  let y ← getItem dirDict "Y"
  let z ← getItem dirDict "Z"
  .ok { x := x, y := y, z := z }

/-- Source `reader.buildOrthogonalCamera`. -/
def buildOrthogonalCamera (oCamDict : XmlValue) : Except PyError OrthogonalCamera := do
  let camViewpoint ← buildPoint (← getItem oCamDict "CameraViewPoint")
  let camDirection ← buildDirection (← getItem oCamDict "CameraDirection")
  let camUpVector ← buildDirection (← getItem oCamDict "CameraUpVector")
  let vWorldScale ← getItem oCamDict "ViewToWorldScale"
  .ok { viewPoint := camViewpoint, direction := camDirection,
        upVector := camUpVector, viewWorldScale := vWorldScale }

/-- Source `reader.buildPerspectiveCamera`. -/
def buildPerspectiveCamera (pCamDict : XmlValue) : Except PyError PerspectiveCamera := do
  let camViewpoint ← buildPoint (← getItem pCamDict "CameraViewPoint")
  let camDirection ← buildDirection (← getItem pCamDict "CameraDirection")
  let camUpVector ← buildDirection (← getItem pCamDict "CameraUpVector")
  let fieldOfView ← getItem pCamDict "FieldOfView"
  .ok { viewPoint := camViewpoint, direction := camDirection,
        upVector := camUpVector, fieldOfView := fieldOfView }

/-- Source `reader.buildLine`. -/
def buildLine (lineDict : XmlValue) : Except PyError Line := do
  let start ← buildPoint (← getItem lineDict "StartPoint")
  let stop ← buildPoint (← getItem lineDict "EndPoint")
  .ok { startPoint := start, endPoint := stop }

/-- Source `reader.buildClippingPlane`. -/
def buildClippingPlane (clipDict : XmlValue) : Except PyError ClippingPlane := do
  let location ← buildPoint (← getItem clipDict "Location")
  let direction ← buildDirection (← getItem clipDict "Direction")
  .ok { location := location, direction := direction }

/-- Source `reader.buildBitmap`. -/
def buildBitmap (bmDict : XmlValue) : Except PyError Bitmap := do
  let bmFormatStr ← getItem bmDict "Bitmap"
  let bmFormat := match bmFormatStr with
                  | .str "PNG" => BitmapFormat.png
                  | _ => BitmapFormat.jpg
  let reference ← getItem bmDict "Reference"
  let location ← buildPoint (← getItem bmDict "Location")
  let normal ← buildDirection (← getItem bmDict "Normal")
  let up ← buildDirection (← getItem bmDict "Up")
  let height ← getItem bmDict "Height"
  .ok { format := bmFormat, reference := reference, location := location,
        normal := normal, up := up, height := height }

/-- The recurring `x = None; if node: x = buildX(node)` pattern of
`buildViewpoint`: the sub-object is built only when its node is truthy. -/
def buildWhenTruthy {α : Type} (cond : Bool) (build : Except PyError α) :
    Except PyError (Option α) :=
  if cond then do
    let a ← build
    pure (some a)
  else
    pure none

/-- The `Lines` step of `buildViewpoint`: the optional inner `Line` list,
one `buildLine` per entry. -/
def buildLineList (linesDict : XmlValue) : Except PyError (List Line) := do
  let linesList ← pyToList (getOptionalFromDict linesDict "Line" (.list []))
  mapExcept buildLine linesList

/-- The `ClippingPlanes` step of `buildViewpoint`: the optional inner
`ClippingPlane` list, one `buildClippingPlane` per entry. -/
def buildClippingPlaneList (clippingPlaneDict : XmlValue) : Except PyError (List ClippingPlane) := do
  let clippingPlaneList ←
    pyToList (getOptionalFromDict clippingPlaneDict "ClippingPlane" (.list []))
  mapExcept buildClippingPlane clippingPlaneList

/-- Source `reader.buildViewpoint` on the parsed visualization-info record:
identifier, optional component set, the two optional cameras — each built
independently whenever its node is truthy — lines, clipping planes and
bitmaps. -/
def buildViewpoint (vpDict : XmlValue) : Except PyError Viewpoint := do
  let idV ← getItem vpDict "@Guid"
  let id ← pyUUID idV
  let componentsDict := getOptionalFromDict vpDict "Components" .null
  let components ← buildWhenTruthy (truthy componentsDict) (buildComponents componentsDict)
  let oCamDict := getOptionalFromDict vpDict "OrthogonalCamera" .null
  let oCam ← buildWhenTruthy (truthy oCamDict) (buildOrthogonalCamera oCamDict)
  let pCamDict := getOptionalFromDict vpDict "PerspectiveCamera" .null
  let pCam ← buildWhenTruthy (truthy pCamDict) (buildPerspectiveCamera pCamDict)
  let linesDict := getOptionalFromDict vpDict "Lines" .null
  let lines ← listWhenTruthy (truthy linesDict) (buildLineList linesDict)
  let clippingPlaneDict := getOptionalFromDict vpDict "ClippingPlanes" .null
  let clippingPlanes ←
    listWhenTruthy (truthy clippingPlaneDict) (buildClippingPlaneList clippingPlaneDict)
  let bitmapList ← pyToList (getOptionalFromDict vpDict "Bitmap" (.list []))
  let bitmaps ← mapExcept buildBitmap bitmapList
  .ok { xmlId := id, components := components, oCamera := oCam,
        pCamera := pCam, lines := lines, clippingPlanes := clippingPlanes,
        bitmaps := bitmaps }

/-! ## Container orchestrator (source `reader.py`, top level)

The zip container and the schema validator are external collaborators
(spec §2): an extracted archive is modelled as the parsed record tree of
each member file together with the validator's verdict on it, and the log
of reported diagnostics is returned alongside the project. -/

/-- The extracted `bcf.version` descriptor: the validator's verdict and the
parsed record. -/
structure VersionFile where
  valid : Bool
  record : XmlValue
deriving Repr

/-- The extracted optional `project.bcfp` descriptor. -/
structure ProjectFile where
  valid : Bool
  record : XmlValue
deriving Repr

/-- One topic subdirectory: its name, the parsed `markup.bcf` record with
the validator's verdict on the file, and the parsed viewpoint documents
keyed by their path relative to the directory. -/
structure TopicRecord where
  name : String
  markupValid : Bool
  markupRecord : XmlValue
  viewpointFiles : List (String × XmlValue)
deriving Repr

/-- An extracted BCF archive. -/
structure BcfArchive where
  versionFile : Option VersionFile
  projectFile : Option ProjectFile
  topics : List TopicRecord
deriving Repr

/-- Diagnostics the loader prints while it works, one constructor per print
site of `readBcfFile`, carrying the identifying data the source interpolates
into the message. -/
inductive Log where
  | noVersionFile
  | versionFileInvalid
  | versionNotSupported (version : XmlValue)
  | projectFileInvalid
  | markupFileInvalid (topicName : String)
  | viewpointSkipped (missingKey : String) (topicName : String) (file : XmlValue)
deriving Repr

/-- Source constant `SUPPORTED_VERSIONS`. -/
def supportedVersions : List String := ["2.1"]

/-- Source `reader.getVersion`: `ValueError` when `bcf.version` is absent,
python `None` when the file does not validate against the version schema,
otherwise the `@VersionId` attribute of the parsed record. -/
def getVersion (versionFile : Option VersionFile) : Except PyError XmlValue :=
  match versionFile with
  | none => .error (.valueError "bcf.version was not found in the extracted zip archive")
  | some vf =>
      if vf.valid then getItem vf.record "@VersionId"
      else .ok .null

/-- Source `reader.buildProject` on the parsed project record (in the
`readBcfFile` flow the file and the schema exist, so the early `None`
returns for missing paths do not arise).  Note that the source checks
`Name` inside `projectDict["Project"]` but `ExtensionSchema` at the top
level of `projectDict`. -/
def buildProject (projectDict : XmlValue) : Except PyError Project := do
  let projNode ← getItem projectDict "Project"
  let pIdV ← getItem projNode "@ProjectId"
  let pId ← pyUUID pIdV
  let pName := getOptionalFromDict projNode "Name" (.str "")
  let pExtensionSchema := getOptionalFromDict projectDict "ExtensionSchema" (.str "")
  .ok { xmlId := pId, name := pName, extSchemaSrc := pExtensionSchema,
        topicList := [] }

/-- Python `UUID(int=0)`. -/
def zeroUUID : String := "00000000-0000-0000-0000-000000000000"

/-- Modelled from the spec: the `Project(UUID(int=0))` default used when no
`project.bcfp` is present; the class defaults of `rdwr/project.py` (not
under `src/`) are an empty display name, no extension schema and an empty
topic list. -/
def emptyProject : Project :=
  { xmlId := zeroUUID, name := .str "", extSchemaSrc := .null, topicList := [] }

/-- Opening and parsing one viewpoint document of a topic directory
(`buildViewpoint(vpPath, ...)` in the loop of `readBcfFile`): an OS error —
not a `KeyError` — when no file of that relative path exists. -/
def fetchViewpointRecord (t : TopicRecord) (path : String) : Except PyError XmlValue :=
  match t.viewpointFiles.lookup path with
  | some r => .ok r
  | none => .error (.osError path)

/-- `buildViewpoint` applied to the viewpoint document at `path` inside the
topic directory. -/
def buildViewpointAt (t : TopicRecord) (path : String) : Except PyError Viewpoint := do
  let vpDict ← fetchViewpointRecord t path
  buildViewpoint vpDict

/-- The `vpRef.file.uri` access of the per-viewpoint loop: an
`AttributeError` when the reference's `file` attribute holds a raw (falsy)
value instead of a `Uri` object. -/
def fileUriOf : PyVal Uri → Except PyError Uri
  | .obj u => .ok u
  | .raw _ => .error (.attributeError "object has no attribute uri")

/-- `os.path.join(topicDir, uri)` demands a string locator; any other value
raises a `TypeError`. -/
def asPathString : XmlValue → Except PyError String
  | .str s => .ok s
  | _ => .error (.typeError "join() argument must be str")

/-- The per-viewpoint loop of `readBcfFile` (source lines 692-704) over the
markup's viewpoint references: compute the file path from `vpRef.file.uri`,
build the viewpoint, and on a `KeyError` — and only a `KeyError` — print
the skip notice naming the topic and the viewpoint file and leave the
reference without a resolved viewpoint; every other exception
propagates. -/
def attachViewpoints (t : TopicRecord) :
    List ViewpointReference → Except PyError (List ViewpointReference × List Log)
  | [] => .ok ([], [])
  | vpRef :: rest => do
      let uriObj ← fileUriOf vpRef.file
      let path ← asPathString uriObj.uri
      match buildViewpointAt t path with
      | .error (.keyError k) => do
          let (rest', logs) ← attachViewpoints t rest
          .ok (vpRef :: rest', .viewpointSkipped k t.name uriObj.uri :: logs)
      | .error e => .error e
      | .ok vp => do
          let (rest', logs) ← attachViewpoints t rest
          .ok ({ vpRef with viewpoint := some vp } :: rest', logs)

/-- One iteration of the topic-directory loop of `readBcfFile`: report the
advisory markup-validation verdict, build the markup — an exception here
propagates, there is no handler around `buildMarkup` — then attach the
viewpoints. -/
def processTopic (t : TopicRecord) : Except PyError (Markup × List Log) := do
  let validationLog := if t.markupValid then [] else [Log.markupFileInvalid t.name]
  let markup ← buildMarkup t.markupRecord
  let (viewpoints, logs) ← attachViewpoints t markup.viewpoints
  .ok ({ markup with viewpoints := viewpoints }, validationLog ++ logs)

/-- The topic-directory loop of `readBcfFile`, in directory order. -/
def processTopics : List TopicRecord → Except PyError (List Markup × List Log)
  | [] => .ok ([], [])
  | t :: ts => do
      let (m, logs1) ← processTopic t
      let (ms, logs2) ← processTopics ts
      .ok (m :: ms, logs1 ++ logs2)

/-- What a load yields when no exception escapes: the project — python
`None` after a structural rejection — together with the printed
diagnostics. -/
structure LoadResult where
  project : Option Project
  logs : List Log
deriving Repr

/-- The membership test `version not in SUPPORTED_VERSIONS` of
`readBcfFile` (python `in` on a list of strings compares by equality, so a
non-string parse result matches nothing). -/
def versionSupported : XmlValue → Bool
  | .str s => supportedVersions.contains s
  | _ => false

/-- Source `reader.readBcfFile` on an extracted archive: the version gate
(missing descriptor, invalid descriptor or unsupported version id each
abort the load with no project), the optional project descriptor, then the
topic loop. -/
def readBcfFile (archive : BcfArchive) : Except PyError LoadResult :=
  match archive.versionFile with
  | none => .ok { project := none, logs := [.noVersionFile] }
  | some vf =>
      if !vf.valid then .ok { project := none, logs := [.versionFileInvalid] }
      else do
        let version ← getVersion (some vf)
        let supported := versionSupported version
        if !supported then
          .ok { project := none, logs := [.versionNotSupported version] }
        else do
          let (proj, projLogs) ←
            match archive.projectFile with
            | none => Except.ok (emptyProject, ([] : List Log))
            | some pf => do
                let l := if pf.valid then ([] : List Log) else [Log.projectFileInvalid]
                let p ← buildProject pf.record
                Except.ok (p, l)
          let (markups, topicLogs) ← processTopics archive.topics
          .ok { project := some { proj with topicList := markups },
                logs := projLogs ++ topicLogs }

/-! ## Source `reader.readFile` -/

/-- A `zipfile.ZipFile` handle. -/
structure ZipHandle where
  path : String
deriving Repr

/-- The argument the source passes to `os.path.exists`: a path string, or —
as on line 41 of `reader.py` — the builtin type `str` itself. -/
inductive PathArg where
  | path (p : String)
  | strType
deriving Repr

/-- Python `os.path.exists`: on a path string it consults the file system;
on the builtin type `str` the underlying `os.stat` raises `TypeError`,
which `os.path.exists` does not catch (it catches only `OSError` and
`ValueError`). -/
def osPathExists (fs : String → Bool) : PathArg → Except PyError Bool
  | .path p => .ok (fs p)
  | .strType => .error (.typeError "argument should be a str or an os.PathLike object, not type")

/-- Source `reader.readFile`: guards with `os.path.exists(str)` — the
builtin type, not the `path` argument — raising `ValueError` when the check
is falsy, then opens the zip file, returning `None` when opening fails
(`zipOk` is the external zip library's verdict on the file). -/
def readFile (fs : String → Bool) (zipOk : String → Bool) (path : String) :
    Except PyError (Option ZipHandle) := do
  let ex ← osPathExists fs .strType
  if !ex then
    .error (.valueError "")
  else
    if zipOk path then .ok (some ⟨path⟩) else .ok none

/-! ## Change-tracked document model (source `src/bcf/project.py`) -/

namespace Bcf

/-- Modelled from the spec: the mutation-state tags of `interfaces/state.py`
(not under `src/`): `{Original, Added, Modified, Deleted}`. -/
inductive States where
  | original
  | added
  | modified
  | deleted
deriving Repr, DecidableEq

/-- A handle standing for the python object identity of a node, used as the
second component of the `(state, self)` pairs that `getStateList`
gathers. -/
inductive NodeRef where
  | project
  | nameElem
  | extSchemaElem
  | markupNode (markupIndex : Nat) (childIndex : Nat)
deriving Repr, DecidableEq

/-- Source `bcf/project.py` class `SimpleElement`: a leaf scalar wrapped
with its tag name, its parent handle and its own mutation-state tag. -/
structure SimpleElement where
  value : XmlValue
  xmlName : String
  containingObject : Option NodeRef
  state : States
deriving Repr

/-- Modelled from the spec: `State.getStateList` of `interfaces/state.py`
(not under `src/`) for a leaf node: the node contributes the pair
`(state, self)` exactly when its own tag is not `Original` (spec §3: every
node carries a tag; §8: a node reports itself, descendants are walked
explicitly by composites).  `ref` is the handle standing for `self`. -/
def SimpleElement.getStateList (e : SimpleElement) (ref : NodeRef) :
    List (States × NodeRef) :=
  if e.state = .original then [] else [(e.state, ref)]

/-- Source `bcf/project.py` class `SimpleList`: a list of `SimpleElement`s
together with the tag name, parent handle and state of the list itself. -/
structure SimpleList where
  elements : List SimpleElement
  xmlName : String
  containingObject : Option NodeRef
  state : States
deriving Repr

/-- Source `SimpleList.__init__`: every data item is wrapped into a
`SimpleElement` carrying the list's tag name, parent and state. -/
def SimpleList.ofData (data : List XmlValue) (xmlName : String)
    (containingElement : Option NodeRef) (state : States) : SimpleList :=
  { elements := data.map (fun item => ⟨item, xmlName, containingElement, state⟩),
    xmlName := xmlName, containingObject := containingElement, state := state }

/-- The argument of `SimpleList.append`: either an object that already is a
`SimpleElement` instance, or any other python value. -/
inductive AppendItem where
  | simpleElement (e : SimpleElement)
  | plain (v : XmlValue)
deriving Repr

/-- Source `SimpleList.append`: an item that is not a `SimpleElement` is
enveloped into a new `SimpleElement` with the list's own `xmlName` and
`containingObject` and state `ADDED`; an item that already is a
`SimpleElement` has its state overwritten to `ADDED`; the result is
appended. -/
def SimpleList.append (l : SimpleList) (item : AppendItem) : SimpleList :=
  match item with
  | .plain v =>
      { l with elements :=
          l.elements ++ [⟨v, l.xmlName, l.containingObject, .added⟩] }
  | .simpleElement e =>
      { l with elements := l.elements ++ [{ e with state := States.added }] }

/-- Modelled from the spec: what `Project.getStateList` uses of a
topic-markup (`Markup.getStateList` lives in `rdwr/markup.py`, not under
`src/`): the list of `(state, node)` pairs gathered by walking that
markup's own subtree; its handles reference nodes of that markup only. -/
structure MarkupStateSource where
  stateList : List (States × NodeRef)
deriving Repr

/-- Source `bcf/project.py` class `Project`, restricted to the fields its
`getStateList` reads: the project's own mutation-state tag, the `Name` and
`ExtensionSchema` value wrappers, and the topic list. -/
structure Project where
  xmlId : String
  state : States
  name : SimpleElement
  extSchemaSrc : SimpleElement
  topicList : List MarkupStateSource
deriving Repr

/-- Modelled from the spec: `State.isOriginal` of `interfaces/state.py`
(not under `src/`): whether the node's own tag is `Original`. -/
def Project.isOriginal (p : Project) : Bool :=
  p.state = States.original

/-- Source `Project.getStateList` (lines 204-215): the project appends its
own `(state, self)` pair only when it is not `Original`, then concatenates
the state lists of its `_name` and `_extSchemaSrc` wrappers and of every
markup in `topicList`. -/
def Project.getStateList (p : Project) : List (States × NodeRef) :=
  let stateList : List (States × NodeRef) :=
    if !p.isOriginal then [(p.state, NodeRef.project)] else []
  let stateList := stateList ++ p.name.getStateList NodeRef.nameElem
  let stateList := stateList ++ p.extSchemaSrc.getStateList NodeRef.extSchemaElem
  p.topicList.foldl (fun acc markup => acc ++ markup.stateList) stateList

end Bcf

/-! ## General lemmas about the embedding -/

theorem bind_ok_iff {α β : Type} (x : Except PyError α) (f : α → Except PyError β) (b : β) :
    (x >>= f = Except.ok b) ↔ ∃ a, x = Except.ok a ∧ f a = Except.ok b := by
  cases x <;> simp [Bind.bind, Except.bind]

theorem pure_ok {α : Type} (a : α) : (pure a : Except PyError α) = Except.ok a := rfl

theorem getOptionalFromDict_absent (d : XmlValue) (key : String) (empty : XmlValue)
    (h : hasKey d key = false) : getOptionalFromDict d key empty = empty := by
  cases d <;> simp only [getOptionalFromDict]
  rename_i kvs
  cases hl : lookupKey kvs key with
  | none => rfl
  | some v => simp [hasKey, hl] at h

theorem getOptionalFromDict_present (kvs : List (String × XmlValue)) (key : String)
    (empty v : XmlValue) (h : lookupKey kvs key = some v) :
    getOptionalFromDict (.dict kvs) key empty = v := by
  simp only [getOptionalFromDict, h]

theorem getItem_dict_of_lookup (kvs : List (String × XmlValue)) (key : String) (v : XmlValue)
    (h : lookupKey kvs key = some v) : getItem (.dict kvs) key = .ok v := by
  simp only [getItem, h]

theorem getItem_dict_absent (kvs : List (String × XmlValue)) (key : String)
    (h : lookupKey kvs key = none) : getItem (.dict kvs) key = .error (.keyError key) := by
  simp only [getItem, h]

theorem mapExcept_ok_length {α β : Type} (f : α → Except PyError β) (xs : List α)
    (ys : List β) (h : mapExcept f xs = .ok ys) : ys.length = xs.length := by
  induction xs generalizing ys with
  | nil => cases h; rfl
  | cons a as ih =>
      simp only [mapExcept, bind_ok_iff, Except.ok.injEq] at h
      obtain ⟨b, _, bs, hbs, rfl⟩ := h
      simp [ih bs hbs]

theorem mapExcept_ok_get {α β : Type} (f : α → Except PyError β) (xs : List α)
    (ys : List β) (h : mapExcept f xs = .ok ys) :
    ∀ i (hx : i < xs.length) (hy : i < ys.length),
      f (xs.get ⟨i, hx⟩) = .ok (ys.get ⟨i, hy⟩) := by
  induction xs generalizing ys with
  | nil => intro i hx; exact absurd hx (by simp)
  | cons a as ih =>
      simp only [mapExcept, bind_ok_iff, Except.ok.injEq] at h
      obtain ⟨b, hb, bs, hbs, rfl⟩ := h
      intro i hx hy
      cases i with
      | zero => simpa using hb
      | succ j => exact ih bs hbs j (by simpa using hx) (by simpa using hy)

theorem mapExcept_ok_mem {α β : Type} (f : α → Except PyError β) (xs : List α)
    (ys : List β) (h : mapExcept f xs = .ok ys) :
    ∀ y ∈ ys, ∃ x ∈ xs, f x = .ok y := by
  induction xs generalizing ys with
  | nil => cases h; simp
  | cons a as ih =>
      simp only [mapExcept, bind_ok_iff, Except.ok.injEq] at h
      obtain ⟨b, hb, bs, hbs, rfl⟩ := h
      intro y hy
      rcases List.mem_cons.mp hy with rfl | hy
      · exact ⟨a, List.mem_cons_self a as, hb⟩
      · obtain ⟨x, hx, hfx⟩ := ih bs hbs y hy
        exact ⟨x, List.mem_cons_of_mem a hx, hfx⟩

/-! ## Claim C10: `readFile` always raises -/

/-- C10: for every path argument (and every state of the file system and of
the zip library), `readFile` raises an exception and never returns an
opened archive object nor its documented `None` fallback, because its
existence check is applied to the builtin `str` type instead of the
supplied path argument. -/
theorem readFile_always_raises (fs zipOk : String → Bool) (path : String) :
    readFile fs zipOk path =
      .error (.typeError "argument should be a str or an os.PathLike object, not type") ∧
    ∀ r : Option ZipHandle, readFile fs zipOk path ≠ .ok r := by
  refine ⟨rfl, ?_⟩
  intro r h
  rw [show readFile fs zipOk path =
        .error (.typeError "argument should be a str or an os.PathLike object, not type")
      from rfl] at h
  cases h

/-! ## Claim C9: `SimpleList.append` -/

/-- C9: after `SimpleList.append`, the element stored at the end of the
list is a `SimpleElement` whose mutation-state tag is `Added`: an item that
is not a `SimpleElement` is wrapped into a new `SimpleElement` carrying the
list's `xmlName` and `containingObject`, and an item that already is a
`SimpleElement` keeps its other fields but has its state overwritten to
`Added` — in particular even when it was `Original` before the call. -/
theorem simpleListAppend_stores_added (l : Bcf.SimpleList) (item : Bcf.AppendItem) :
    ∃ stored : Bcf.SimpleElement,
      (l.append item).elements = l.elements ++ [stored] ∧
      stored.state = Bcf.States.added ∧
      (∀ v, item = .plain v →
        stored = ⟨v, l.xmlName, l.containingObject, Bcf.States.added⟩) ∧
      (∀ e, item = .simpleElement e →
        stored = { e with state := Bcf.States.added }) := by
  cases item with
  | plain v =>
      refine ⟨⟨v, l.xmlName, l.containingObject, Bcf.States.added⟩, rfl, rfl, ?_, ?_⟩
      · intro v' hv; cases hv; rfl
      · intro e he; cases he
  | simpleElement e =>
      refine ⟨{ e with state := Bcf.States.added }, rfl, rfl, ?_, ?_⟩
      · intro v' hv; cases hv
      · intro e' he; cases he; rfl

/-! ## Claim C8: `Project.getStateList` -/

theorem foldl_stateList_mem (ts : List Bcf.MarkupStateSource)
    (init : List (Bcf.States × Bcf.NodeRef)) (x : Bcf.States × Bcf.NodeRef) :
    (x ∈ ts.foldl (fun acc markup => acc ++ markup.stateList) init) ↔
      (x ∈ init ∨ ∃ m ∈ ts, x ∈ m.stateList) := by
  induction ts generalizing init with
  | nil => simp
  | cons t ts ih =>
      simp only [List.foldl_cons, ih, List.mem_append, List.mem_cons]
      constructor
      · rintro ((h | h) | ⟨m, hm, hx⟩)
        · exact Or.inl h
        · exact Or.inr ⟨t, Or.inl rfl, h⟩
        · exact Or.inr ⟨m, Or.inr hm, hx⟩
      · rintro (h | ⟨m, (rfl | hm), hx⟩)
        · exact Or.inl (Or.inl h)
        · exact Or.inl (Or.inr hx)
        · exact Or.inr ⟨m, hm, hx⟩

/-- C8: the aggregated pending-change query of a project contains the pair
`(state, project)` for the project itself exactly when the project's own
mutation-state tag is not `Original`, and in every case it additionally
contains all state entries gathered from the `Name` and `ExtensionSchema`
value wrappers and from every topic-markup of the topic list: the
composite's own tag never stands in for its children's states.  The
hypothesis records that a markup's own walk references only its own nodes,
never the project node. -/
theorem projectGetStateList_spec (p : Bcf.Project)
    (hm : ∀ m ∈ p.topicList, ∀ e ∈ m.stateList,
            ∀ s : Bcf.States, e ≠ (s, Bcf.NodeRef.project)) :
    (∀ s : Bcf.States,
      ((s, Bcf.NodeRef.project) ∈ p.getStateList ↔
        (s = p.state ∧ p.state ≠ Bcf.States.original))) ∧
    (∀ e ∈ p.name.getStateList Bcf.NodeRef.nameElem, e ∈ p.getStateList) ∧
    (∀ e ∈ p.extSchemaSrc.getStateList Bcf.NodeRef.extSchemaElem, e ∈ p.getStateList) ∧
    (∀ m ∈ p.topicList, ∀ e ∈ m.stateList, e ∈ p.getStateList) := by
  have hmem : ∀ x : Bcf.States × Bcf.NodeRef,
      x ∈ p.getStateList ↔
        (x ∈ (if !p.isOriginal then [(p.state, Bcf.NodeRef.project)] else []) ∨
         x ∈ p.name.getStateList Bcf.NodeRef.nameElem ∨
         x ∈ p.extSchemaSrc.getStateList Bcf.NodeRef.extSchemaElem ∨
         ∃ m ∈ p.topicList, x ∈ m.stateList) := by
    intro x
    unfold Bcf.Project.getStateList
    rw [foldl_stateList_mem]
    simp [List.mem_append, or_assoc]
  refine ⟨?_, ?_, ?_, ?_⟩
  · intro s
    rw [hmem]
    constructor
    · rintro (h | h | h | ⟨m, hmm, hx⟩)
      · unfold Bcf.Project.isOriginal at h
        by_cases horig : p.state = Bcf.States.original
        · simp [horig] at h
        · simp [horig] at h
          exact ⟨h, horig⟩
      · unfold Bcf.SimpleElement.getStateList at h
        split at h <;> simp_all
      · unfold Bcf.SimpleElement.getStateList at h
        split at h <;> simp_all
      · exact absurd rfl (hm m hmm _ hx s)
    · rintro ⟨rfl, hnot⟩
      left
      unfold Bcf.Project.isOriginal
      simp [hnot]
  · intro e he
    rw [hmem]
    exact Or.inr (Or.inl he)
  · intro e he
    rw [hmem]
    exact Or.inr (Or.inr (Or.inl he))
  · intro m hmm e he
    rw [hmem]
    exact Or.inr (Or.inr (Or.inr ⟨m, hmm, he⟩))

/-! ## Claim C1: both cameras in one viewpoint record -/

def cexPointDict : XmlValue :=
  .dict [("X", .int 0), ("Y", .int 0), ("Z", .int 1)]

def cexOrthogonalCameraDict : XmlValue :=
  .dict [("CameraViewPoint", cexPointDict), ("CameraDirection", cexPointDict),
         ("CameraUpVector", cexPointDict), ("ViewToWorldScale", .int 1)]

def cexPerspectiveCameraDict : XmlValue :=
  .dict [("CameraViewPoint", cexPointDict), ("CameraDirection", cexPointDict),
         ("CameraUpVector", cexPointDict), ("FieldOfView", .int 60)]

/-- A viewpoint record carrying both an orthogonal-camera node and a
perspective-camera node. -/
def bothCamerasViewpointDict : XmlValue :=
  .dict [("@Guid", .str "11111111-1111-1111-1111-111111111111"),
         ("OrthogonalCamera", cexOrthogonalCameraDict),
         ("PerspectiveCamera", cexPerspectiveCameraDict)]

/-- C1 counterexample: on a record with both camera nodes, `buildViewpoint`
neither rejects the record nor resolves to a single camera: it succeeds and
the resulting `Viewpoint` silently holds both camera objects at once. -/
theorem buildViewpoint_keeps_both_cameras_cex :
    ∃ vp : Viewpoint, buildViewpoint bothCamerasViewpointDict = .ok vp ∧
      vp.oCamera.isSome = true ∧ vp.pCamera.isSome = true :=
  ⟨_, rfl, rfl, rfl⟩

theorem buildWhenTruthy_isSome {α : Type} (c : Bool) (b : Except PyError α)
    (r : Option α) (h : buildWhenTruthy c b = .ok r) : r.isSome = c := by
  unfold buildWhenTruthy at h
  cases c with
  | false =>
      simp only [Bool.false_eq_true, if_false, pure_ok, Except.ok.injEq] at h
      subst h; rfl
  | true =>
      simp only [if_true, bind_ok_iff, pure_ok, Except.ok.injEq] at h
      obtain ⟨a, _, rfl⟩ := h
      rfl

/-- C1 amended: `buildViewpoint` builds the two cameras independently — the
built viewpoint holds an orthogonal camera exactly when the record's
orthogonal-camera node is truthy and a perspective camera exactly when the
record's perspective-camera node is truthy; a record containing both camera
nodes therefore yields a viewpoint holding both cameras, with no rejection
and no resolution to a single one. -/
theorem buildViewpoint_cameras_independent (vpDict : XmlValue) (vp : Viewpoint)
    (h : buildViewpoint vpDict = .ok vp) :
    vp.oCamera.isSome = truthy (getOptionalFromDict vpDict "OrthogonalCamera" .null) ∧
    vp.pCamera.isSome = truthy (getOptionalFromDict vpDict "PerspectiveCamera" .null) := by
  simp only [buildViewpoint, bind_ok_iff, Except.ok.injEq] at h
  obtain ⟨idV, hidV, id, hid, components, hcomponents, oCam, hoCam, pCam, hpCam,
          lines, hlines, clippingPlanes, hcp, bitmapList, hbm, bitmaps, hbms, hvp⟩ := h
  subst hvp
  exact ⟨buildWhenTruthy_isSome _ _ _ hoCam, buildWhenTruthy_isSome _ _ _ hpCam⟩

def cexPoint : Point := ⟨.int 0, .int 0, .int 1⟩

def cexDirection : Direction := ⟨.int 0, .int 0, .int 1⟩

/-- The viewpoint that `buildViewpoint` produces from
`bothCamerasViewpointDict`. -/
def bothCamerasViewpoint : Viewpoint :=
  { xmlId := "11111111-1111-1111-1111-111111111111",
    components := none,
    oCamera := some ⟨cexPoint, cexDirection, cexDirection, .int 1⟩,
    pCamera := some ⟨cexPoint, cexDirection, cexDirection, .int 60⟩,
    lines := [], clippingPlanes := [], bitmaps := [] }

/-- C1 witness: the amended statement evaluated on the both-cameras
record. -/
theorem buildViewpoint_cameras_independent_witness :
    bothCamerasViewpoint.oCamera.isSome =
      truthy (getOptionalFromDict bothCamerasViewpointDict "OrthogonalCamera" .null) ∧
    bothCamerasViewpoint.pCamera.isSome =
      truthy (getOptionalFromDict bothCamerasViewpointDict "PerspectiveCamera" .null) :=
  buildViewpoint_cameras_independent bothCamerasViewpointDict bothCamerasViewpoint rfl

/-! ## Claim C7: coloring entries and the coloring section -/

/-- A components record with no `Coloring` section at all. -/
def componentsNoColoringDict : XmlValue := .dict [("Visibility", .dict [])]

/-- A components record whose `Coloring` section is present (truthy) but
whose `Color` list yields no constructed entries. -/
def componentsEmptyColoringDict : XmlValue :=
  .dict [("Visibility", .dict []), ("Coloring", .dict [("Color", .list [])])]

/-- C7 counterexample: a components record whose coloring section is
present but yields no constructed entries builds the very same
`Components` value as a record whose coloring section is absent — the two
cases are not represented distinctly. -/
theorem buildComponents_coloring_not_distinct_cex :
    hasKey componentsEmptyColoringDict "Coloring" = true ∧
    hasKey componentsNoColoringDict "Coloring" = false ∧
    ∃ c : Components, buildComponents componentsNoColoringDict = .ok c ∧
      buildComponents componentsEmptyColoringDict = .ok c :=
  ⟨rfl, rfl, _, rfl, rfl⟩

/-- C7 amended: a coloring entry (`ComponentColour`) is constructed exactly
when the colour record carries a truthy colour value; and a components
record whose coloring section is absent or falsy carries the empty coloring
list — the same representation a present coloring section that yields no
entries can produce, so the two situations are not distinguished. -/
theorem componentColouring_spec :
    (∀ ccDict r, buildComponentColour ccDict = .ok r →
       r.isSome = truthy (getOptionalFromDict ccDict "@Color" .null)) ∧
    (∀ componentsDict c, buildComponents componentsDict = .ok c →
       truthy (getOptionalFromDict componentsDict "Coloring" .null) = false →
       c.componentColours = []) := by
  constructor
  · intro ccDict r h
    unfold buildComponentColour at h
    by_cases hc : truthy (getOptionalFromDict ccDict "@Color" .null)
    · rw [if_pos hc] at h
      simp only [bind_ok_iff, pure_ok, Except.ok.injEq] at h
      obtain ⟨clv, _, cl, _, rfl⟩ := h
      simp [hc]
    · rw [if_neg hc] at h
      simp only [Except.ok.injEq] at h
      subst h
      simp [Bool.not_eq_true _ |>.mp hc]
  · intro componentsDict c h hcol
    simp only [buildComponents, bind_ok_iff, Except.ok.injEq] at h
    obtain ⟨sel, hsel, vis, hvis, exceptions, hexc, colours, hcolours, hc⟩ := h
    subst hc
    unfold listWhenTruthy at hcolours
    rw [hcol] at hcolours
    simp only [Bool.false_eq_true, if_false, pure_ok, Except.ok.injEq] at hcolours
    exact hcolours.symm

/-- A colour record carrying a colour value and its mandatory component. -/
def cexColourDict : XmlValue :=
  .dict [("@Color", .str "ff0000"), ("Component", .list [.dict []])]

/-- C7 witness: the amended statement evaluated on a colour-carrying colour
record and on the coloring-free components record. -/
theorem componentColouring_spec_witness :
    (∃ r, buildComponentColour cexColourDict = .ok r ∧
       r.isSome = truthy (getOptionalFromDict cexColourDict "@Color" .null)) ∧
    (∃ c, buildComponents componentsNoColoringDict = .ok c ∧
       c.componentColours = []) :=
  ⟨⟨_, rfl, componentColouring_spec.1 cexColourDict _ rfl⟩,
   ⟨_, rfl, componentColouring_spec.2 componentsNoColoringDict _ rfl rfl⟩⟩

/-! ## Claim C6: defaults for absent optional fields -/

/-- C6: for every record in which an optional field is absent, the builders
populate the entity with the documented default instead of leaving the
field unset: the empty string for the optional text fields of a topic, `-1`
for an unspecified order index (topic and viewpoint reference), the
schema-documented boolean for boolean fields (`False` for a Bim-Snippet's
externality, `True` for a header file's), and python `None` for optional
composite sub-objects (Bim-Snippet, modification/due date,
viewpoint-file/snapshot locator). -/
theorem builders_populate_defaults :
    (∀ topicDict topic, buildTopic topicDict = .ok topic →
      (hasKey topicDict "@TopicStatus" = false → topic.status = .str "") ∧
      (hasKey topicDict "@TopicType" = false → topic.topicType = .str "") ∧
      (hasKey topicDict "Priority" = false → topic.priority = .str "") ∧
      (hasKey topicDict "ModifiedAuthor" = false → topic.modifiedAuthor = .str "") ∧
      (hasKey topicDict "AssignedTo" = false → topic.assignee = .str "") ∧
      (hasKey topicDict "Stage" = false → topic.stage = .str "") ∧
      (hasKey topicDict "Description" = false → topic.description = .str "") ∧
      (hasKey topicDict "Index" = false → topic.index = .int (-1)) ∧
      (hasKey topicDict "ModifiedDate" = false → topic.modifiedDate = .raw .null) ∧
      (hasKey topicDict "DueDate" = false → topic.dueDate = .raw .null) ∧
      (hasKey topicDict "BimSnippet" = false → topic.bimSnippet = none)) ∧
    (∀ vpDict vpRef, buildViewpointReference vpDict = .ok vpRef →
      (hasKey vpDict "Viewpoint" = false → vpRef.file = .raw .null) ∧
      (hasKey vpDict "Snapshot" = false → vpRef.snapshot = .raw .null) ∧
      (hasKey vpDict "Index" = false → vpRef.index = .int (-1))) ∧
    (∀ snippetDict bs, buildBimSnippet snippetDict = .ok bs →
      hasKey snippetDict "@isExternal" = false → bs.isExternal = .bool false) ∧
    (∀ fileDict hf, buildFile fileDict = .ok hf →
      hasKey fileDict "@isExternal" = false → hf.isExternal = .bool true) := by
  refine ⟨?_, ?_, ?_, ?_⟩
  · intro topicDict topic h
    simp only [buildTopic, bind_ok_iff, Except.ok.injEq] at h
    obtain ⟨idV, h1, id, h2, title, h3, cdV, h4, topicDate, h5, author, h6,
            md, h7, dd, h8, bs, h9, drl, h10, drs, h11, rl, h12, rts, h13, hfin⟩ := h
    subst hfin
    refine ⟨?_, ?_, ?_, ?_, ?_, ?_, ?_, ?_, ?_, ?_, ?_⟩ <;> intro habs
    · simp [getOptionalFromDict_absent _ _ _ habs]
    · simp [getOptionalFromDict_absent _ _ _ habs]
    · simp [getOptionalFromDict_absent _ _ _ habs]
    · simp [getOptionalFromDict_absent _ _ _ habs]
    · simp [getOptionalFromDict_absent _ _ _ habs]
    · simp [getOptionalFromDict_absent _ _ _ habs]
    · simp [getOptionalFromDict_absent _ _ _ habs]
    · simp [getOptionalFromDict_absent _ _ _ habs]
    · rw [getOptionalFromDict_absent _ _ _ habs] at h7
      simp only [parseDateUnlessNone, pure_ok, Except.ok.injEq] at h7
      simp [← h7]
    · rw [getOptionalFromDict_absent _ _ _ habs] at h8
      simp only [parseDateUnlessNone, pure_ok, Except.ok.injEq] at h8
      simp [← h8]
    · unfold buildOptionalBimSnippet at h9
      rw [habs] at h9
      simp only [Bool.false_eq_true, if_false, pure_ok, Except.ok.injEq] at h9
      simp [← h9]
  · intro vpDict vpRef h
    simp only [buildViewpointReference, bind_ok_iff, Except.ok.injEq] at h
    obtain ⟨idV, h1, id, h2, hfin⟩ := h
    subst hfin
    refine ⟨?_, ?_, ?_⟩ <;> intro habs <;>
      simp [getOptionalFromDict_absent _ _ _ habs, truthy]
  · intro snippetDict bs h
    simp only [buildBimSnippet, bind_ok_iff, Except.ok.injEq] at h
    obtain ⟨r, h1, rs, h2, st, h3, hfin⟩ := h
    subst hfin
    intro habs
    simp [getOptionalFromDict_absent _ _ _ habs]
  · intro fileDict hf h
    simp only [buildFile, bind_ok_iff, Except.ok.injEq] at h
    obtain ⟨fd, h1, hfin⟩ := h
    subst hfin
    intro habs
    simp [getOptionalFromDict_absent _ _ _ habs]

/-- A topic record carrying only its mandatory fields. -/
def minimalTopicDict : XmlValue :=
  .dict [("@Guid", .str "22222222-2222-2222-2222-222222222222"),
         ("Title", .str "topic title"),
         ("CreationDate", .str "2014-10-16T14:35:29+00:00"),
         ("CreationAuthor", .str "author")]

/-- A viewpoint-reference record carrying only its mandatory identifier. -/
def minimalViewpointRefDict : XmlValue :=
  .dict [("@Guid", .str "33333333-3333-3333-3333-333333333333")]

/-- A Bim-Snippet record carrying only its mandatory fields. -/
def minimalBimSnippetDict : XmlValue :=
  .dict [("Reference", .str "snippet.ifc"), ("ReferenceSchema", .str "schema.xsd"),
         ("@SnippetType", .str "clash")]

/-- A header-file record with every field absent. -/
def minimalFileDict : XmlValue := .dict []

/-- C6 witness: the default policy evaluated on records with the optional
fields absent. -/
theorem builders_populate_defaults_witness :
    (∃ t, buildTopic minimalTopicDict = .ok t ∧ t.status = .str "" ∧
       t.topicType = .str "" ∧ t.priority = .str "" ∧ t.modifiedAuthor = .str "" ∧
       t.assignee = .str "" ∧ t.stage = .str "" ∧ t.description = .str "" ∧
       t.index = .int (-1) ∧ t.modifiedDate = .raw .null ∧ t.dueDate = .raw .null ∧
       t.bimSnippet = none) ∧
    (∃ r, buildViewpointReference minimalViewpointRefDict = .ok r ∧
       r.file = .raw .null ∧ r.snapshot = .raw .null ∧ r.index = .int (-1)) ∧
    (∃ b, buildBimSnippet minimalBimSnippetDict = .ok b ∧ b.isExternal = .bool false) ∧
    (∃ f, buildFile minimalFileDict = .ok f ∧ f.isExternal = .bool true) := by
  refine ⟨⟨_, rfl, ?_, ?_, ?_, ?_, ?_, ?_, ?_, ?_, ?_, ?_, ?_⟩,
          ⟨_, rfl, ?_, ?_, ?_⟩, ⟨_, rfl, ?_⟩, ⟨_, rfl, ?_⟩⟩
  · exact (builders_populate_defaults.1 minimalTopicDict _ rfl).1 rfl
  · exact (builders_populate_defaults.1 minimalTopicDict _ rfl).2.1 rfl
  · exact (builders_populate_defaults.1 minimalTopicDict _ rfl).2.2.1 rfl
  · exact (builders_populate_defaults.1 minimalTopicDict _ rfl).2.2.2.1 rfl
  · exact (builders_populate_defaults.1 minimalTopicDict _ rfl).2.2.2.2.1 rfl
  · exact (builders_populate_defaults.1 minimalTopicDict _ rfl).2.2.2.2.2.1 rfl
  · exact (builders_populate_defaults.1 minimalTopicDict _ rfl).2.2.2.2.2.2.1 rfl
  · exact (builders_populate_defaults.1 minimalTopicDict _ rfl).2.2.2.2.2.2.2.1 rfl
  · exact (builders_populate_defaults.1 minimalTopicDict _ rfl).2.2.2.2.2.2.2.2.1 rfl
  · exact (builders_populate_defaults.1 minimalTopicDict _ rfl).2.2.2.2.2.2.2.2.2.1 rfl
  · exact (builders_populate_defaults.1 minimalTopicDict _ rfl).2.2.2.2.2.2.2.2.2.2 rfl
  · exact (builders_populate_defaults.2.1 minimalViewpointRefDict _ rfl).1 rfl
  · exact (builders_populate_defaults.2.1 minimalViewpointRefDict _ rfl).2.1 rfl
  · exact (builders_populate_defaults.2.1 minimalViewpointRefDict _ rfl).2.2 rfl
  · exact builders_populate_defaults.2.2.1 minimalBimSnippetDict _ rfl rfl
  · exact builders_populate_defaults.2.2.2 minimalFileDict _ rfl rfl

/-! ## Claim C4: the version gate -/

/-- C4: an archive with no `bcf.version` descriptor, and an archive whose
version identifier is not in the fixed supported-version set, are both
rejected whole by `readBcfFile`: the load returns python `None` instead of
a project object — nothing partial. -/
theorem readBcfFile_version_gate :
    (∀ archive : BcfArchive, archive.versionFile = none →
       readBcfFile archive = .ok { project := none, logs := [.noVersionFile] }) ∧
    (∀ (archive : BcfArchive) (vf : VersionFile) (version : XmlValue),
       archive.versionFile = some vf → vf.valid = true →
       getItem vf.record "@VersionId" = .ok version →
       (∀ s, version = .str s → s ∉ supportedVersions) →
       readBcfFile archive = .ok { project := none, logs := [.versionNotSupported version] }) := by
  constructor
  · intro archive h
    unfold readBcfFile
    rw [h]
  · intro archive vf version harch hvalid hversion hunsupported
    have hget : getVersion (some vf) = .ok version := by
      simp [getVersion, hvalid, hversion]
    have hsupp : versionSupported version = false := by
      cases version <;> try rfl
      rename_i s
      have hmem := hunsupported s rfl
      show supportedVersions.contains s = false
      rw [Bool.eq_false_iff]
      intro hc
      exact hmem (List.mem_of_elem_eq_true hc)
    unfold readBcfFile
    rw [harch]
    simp only [hvalid, Bool.not_true, Bool.false_eq_true, if_false, hget, bind_ok_iff]
    refine ⟨version, rfl, ?_⟩
    simp only [hsupp, Bool.not_false, if_true]

/-- An archive whose version descriptor is absent. -/
def noVersionArchive : BcfArchive := ⟨none, none, []⟩

/-- An archive whose version descriptor validates but names an unsupported
version. -/
def unsupportedVersionArchive : BcfArchive :=
  ⟨some ⟨true, .dict [("@VersionId", .str "3.0")]⟩, none, []⟩

/-- C4 witness: the version gate evaluated on the two rejecting archives. -/
theorem readBcfFile_version_gate_witness :
    readBcfFile noVersionArchive = .ok { project := none, logs := [.noVersionFile] } ∧
    readBcfFile unsupportedVersionArchive =
      .ok { project := none, logs := [.versionNotSupported (.str "3.0")] } :=
  ⟨readBcfFile_version_gate.1 noVersionArchive rfl,
   readBcfFile_version_gate.2 unsupportedVersionArchive _ _ rfl rfl rfl
     (by intro s hs; cases hs; decide)⟩

/-! ## Witnesses for C8, C9, C10 -/

/-- A topic-markup state source with one modified node of its own. -/
def wMarkupStates : Bcf.MarkupStateSource :=
  ⟨[(Bcf.States.modified, Bcf.NodeRef.markupNode 0 0)]⟩

/-- A project whose own tag is `Added`, with a modified `Name` wrapper, an
original `ExtensionSchema` wrapper and one topic-markup. -/
def wProject : Bcf.Project :=
  { xmlId := "44444444-4444-4444-4444-444444444444",
    state := Bcf.States.added,
    name := ⟨.str "example project", "Name", some Bcf.NodeRef.project, Bcf.States.modified⟩,
    extSchemaSrc := ⟨.null, "ExtensionSchema", some Bcf.NodeRef.project, Bcf.States.original⟩,
    topicList := [wMarkupStates] }

/-- C8 witness: the aggregated-state statement evaluated on a concrete
project. -/
theorem projectGetStateList_spec_witness :
    (∀ s : Bcf.States,
      ((s, Bcf.NodeRef.project) ∈ wProject.getStateList ↔
        (s = wProject.state ∧ wProject.state ≠ Bcf.States.original))) ∧
    (∀ e ∈ wProject.name.getStateList Bcf.NodeRef.nameElem, e ∈ wProject.getStateList) ∧
    (∀ e ∈ wProject.extSchemaSrc.getStateList Bcf.NodeRef.extSchemaElem,
       e ∈ wProject.getStateList) ∧
    (∀ m ∈ wProject.topicList, ∀ e ∈ m.stateList, e ∈ wProject.getStateList) :=
  projectGetStateList_spec wProject (by
    intro m hm e he s
    simp only [wProject, wMarkupStates, List.mem_singleton] at hm
    subst hm
    simp only [wMarkupStates, List.mem_singleton] at he
    subst he
    simp)

/-- A simple list with tag name `Label` and no parent. -/
def wSimpleList : Bcf.SimpleList := ⟨[], "Label", none, Bcf.States.original⟩

/-- A simple element that is still `Original` before being appended. -/
def wSimpleElement : Bcf.SimpleElement :=
  ⟨.str "architecture", "Label", none, Bcf.States.original⟩

/-- C9 witness: appending an `Original` simple element stores it with its
state overwritten to `Added`. -/
theorem simpleListAppend_stores_added_witness :
    ∃ stored : Bcf.SimpleElement,
      (wSimpleList.append (.simpleElement wSimpleElement)).elements =
        wSimpleList.elements ++ [stored] ∧
      stored.state = Bcf.States.added ∧
      (∀ v, Bcf.AppendItem.simpleElement wSimpleElement = .plain v →
        stored = ⟨v, wSimpleList.xmlName, wSimpleList.containingObject, Bcf.States.added⟩) ∧
      (∀ e, Bcf.AppendItem.simpleElement wSimpleElement = .simpleElement e →
        stored = { e with state := Bcf.States.added }) :=
  simpleListAppend_stores_added wSimpleList (.simpleElement wSimpleElement)

/-- C10 witness: `readFile` raises on a concrete path even with a fully
permissive file system and zip library. -/
theorem readFile_always_raises_witness :
    readFile (fun _ => true) (fun _ => true) "issues.bcf" =
      .error (.typeError "argument should be a str or an os.PathLike object, not type") ∧
    ∀ r : Option ZipHandle, readFile (fun _ => true) (fun _ => true) "issues.bcf" ≠ .ok r :=
  readFile_always_raises (fun _ => true) (fun _ => true) "issues.bcf"

/-! ## Claim C2: comment viewpoint-reference resolution -/

/-- C2: after `buildMarkup` completes, its comments are exactly the built
raw comments put through the cross-reference pass, and that pass — which
raises nothing, being a total function — replaces a comment's raw viewpoint
reference by the markup's own viewpoint-reference object (an element of the
markup's list, carrying that list entry's full state, not the id-only stub
the comment carried) when some reference's identifier matches the raw
viewpoint id, and by the absent marker (python `None`) when no identifier
matches. -/
theorem buildMarkup_resolves_viewpoints :
    (∀ (viewpoints : List ViewpointReference) (guid : String),
       ((getViewpointRefByGuid viewpoints guid).isSome ↔
         ∃ vr ∈ viewpoints, vr.xmlId = guid)) ∧
    (∀ (viewpoints : List ViewpointReference) (c : Comment) (vr : ViewpointReference),
       c.viewpoint = .obj vr →
       ((getViewpointRefByGuid viewpoints vr.xmlId = none →
          (resolveCommentViewpoint viewpoints c).viewpoint = .raw .null) ∧
        (∀ found, getViewpointRefByGuid viewpoints vr.xmlId = some found →
          found ∈ viewpoints ∧ found.xmlId = vr.xmlId ∧
          (resolveCommentViewpoint viewpoints c).viewpoint = .obj found))) ∧
    (∀ markupDict m, buildMarkup markupDict = .ok m →
       ∃ rawComments, buildCommentList markupDict = .ok rawComments ∧
         m.comments = rawComments.map (resolveCommentViewpoint m.viewpoints)) := by
  refine ⟨?_, ?_, ?_⟩
  · intro viewpoints guid
    unfold getViewpointRefByGuid
    rw [List.find?_isSome]
    constructor
    · rintro ⟨vr, hmem, hbeq⟩
      exact ⟨vr, hmem, by simpa using hbeq⟩
    · rintro ⟨vr, hmem, heq⟩
      exact ⟨vr, hmem, by simpa using heq⟩
  · intro viewpoints c vr hcv
    constructor
    · intro hnone
      unfold resolveCommentViewpoint
      rw [hcv]
      simp [hnone]
    · intro found hfound
      refine ⟨List.mem_of_find?_eq_some hfound, ?_, ?_⟩
      · simpa using List.find?_some hfound
      · unfold resolveCommentViewpoint
        rw [hcv]
        simp [hfound]
  · intro markupDict m h
    simp only [buildMarkup, bind_ok_iff, Except.ok.injEq] at h
    obtain ⟨comments, hcom, topicDict, htd, topic, htopic, header, hheader,
            viewpoints, hvps, hfin⟩ := h
    subst hfin
    exact ⟨comments, hcom, rfl⟩

def wGuidHit : String := "55555555-5555-5555-5555-555555555555"

def wGuidMiss : String := "77777777-7777-7777-7777-777777777777"

/-- A comment record whose raw viewpoint id matches the markup's viewpoint
reference. -/
def wCommentHitDict : XmlValue :=
  .dict [("@Guid", .str "66666666-6666-6666-6666-666666666666"),
         ("Date", .str "2014-10-16T14:35:29+00:00"),
         ("Author", .str "a@example.com"),
         ("Comment", .str "first comment"),
         ("Viewpoint", .dict [("@Guid", .str wGuidHit)])]

/-- A comment record whose raw viewpoint id matches nothing. -/
def wCommentMissDict : XmlValue :=
  .dict [("@Guid", .str "88888888-8888-8888-8888-888888888888"),
         ("Date", .str "2014-10-16T14:35:29+00:00"),
         ("Author", .str "a@example.com"),
         ("Comment", .str "second comment"),
         ("Viewpoint", .dict [("@Guid", .str wGuidMiss)])]

/-- A markup record with the two comments above and one viewpoint
reference. -/
def wMarkupDict : XmlValue :=
  .dict [("Topic", minimalTopicDict),
         ("Comment", .list [wCommentHitDict, wCommentMissDict]),
         ("Viewpoints", .list [.dict [("@Guid", .str wGuidHit)]])]

/-- The viewpoint reference the markup above builds. -/
def wVpRef : ViewpointReference :=
  ⟨wGuidHit, .raw .null, .raw .null, .int (-1), none⟩

def wVpRefs : List ViewpointReference := [wVpRef]

/-- The raw comment that hits, as `buildComment` produces it. -/
def wCommentHit : Comment :=
  ⟨"66666666-6666-6666-6666-666666666666", "2014-10-16T14:35:29+00:00",
   .str "a@example.com", .str "first comment",
   .obj (rawViewpointReference wGuidHit), .raw .null, .str ""⟩

/-- The raw comment that misses, as `buildComment` produces it. -/
def wCommentMiss : Comment :=
  ⟨"88888888-8888-8888-8888-888888888888", "2014-10-16T14:35:29+00:00",
   .str "a@example.com", .str "second comment",
   .obj (rawViewpointReference wGuidMiss), .raw .null, .str ""⟩

/-- C2 witness: the resolution statement evaluated on a concrete markup
with one hitting and one missing comment. -/
theorem buildMarkup_resolves_viewpoints_witness :
    (∃ m, buildMarkup wMarkupDict = .ok m ∧
       ∃ rawComments, buildCommentList wMarkupDict = .ok rawComments ∧
         m.comments = rawComments.map (resolveCommentViewpoint m.viewpoints)) ∧
    (wVpRef ∈ wVpRefs ∧ wVpRef.xmlId = (rawViewpointReference wGuidHit).xmlId ∧
       (resolveCommentViewpoint wVpRefs wCommentHit).viewpoint = .obj wVpRef) ∧
    (resolveCommentViewpoint wVpRefs wCommentMiss).viewpoint = .raw .null :=
  ⟨⟨_, rfl, buildMarkup_resolves_viewpoints.2.2 wMarkupDict _ rfl⟩,
   (buildMarkup_resolves_viewpoints.2.1 wVpRefs wCommentHit _ rfl).2 wVpRef rfl,
   (buildMarkup_resolves_viewpoints.2.1 wVpRefs wCommentMiss _ rfl).1 rfl⟩

/-! ## Lemmas about the orchestrator -/

theorem ok_bind {α β : Type} (a : α) (f : α → Except PyError β) :
    (Except.ok a >>= f) = f a := rfl

theorem error_bind {α β : Type} (e : PyError) (f : α → Except PyError β) :
    ((Except.error e : Except PyError α) >>= f) = .error e := rfl

theorem processTopic_ok_spec (t : TopicRecord) (markup : Markup) (logs : List Log)
    (h : processTopic t = .ok (markup, logs)) :
    ∃ m vps vplogs, buildMarkup t.markupRecord = .ok m ∧
      attachViewpoints t m.viewpoints = .ok (vps, vplogs) ∧
      markup = { m with viewpoints := vps } ∧
      (∀ l ∈ vplogs, l ∈ logs) := by
  unfold processTopic at h
  cases hm : buildMarkup t.markupRecord with
  | error e => simp only [hm, error_bind] at h; cases h
  | ok m =>
      simp only [hm, ok_bind] at h
      cases ha : attachViewpoints t m.viewpoints with
      | error e => simp only [ha, error_bind] at h; cases h
      | ok pair =>
          obtain ⟨vps, vplogs⟩ := pair
          simp only [ha, ok_bind, Except.ok.injEq, Prod.mk.injEq] at h
          obtain ⟨hmk, hlogs⟩ := h
          refine ⟨m, vps, vplogs, rfl, ha, hmk.symm, ?_⟩
          intro l hl
          rw [← hlogs]
          exact List.mem_append_right _ hl

theorem processTopics_ok_spec (ts : List TopicRecord) (ms : List Markup) (logs : List Log)
    (h : processTopics ts = .ok (ms, logs)) :
    ms.length = ts.length ∧
    ∀ i (hi : i < ts.length) (hi' : i < ms.length),
      ∃ logsi, processTopic (ts.get ⟨i, hi⟩) = .ok (ms.get ⟨i, hi'⟩, logsi) ∧
        (∀ l ∈ logsi, l ∈ logs) := by
  induction ts generalizing ms logs with
  | nil =>
      unfold processTopics at h
      simp only [Except.ok.injEq, Prod.mk.injEq] at h
      obtain ⟨rfl, rfl⟩ := h
      exact ⟨rfl, fun i hi => absurd hi (by simp)⟩
  | cons t ts ih =>
      unfold processTopics at h
      cases hp : processTopic t with
      | error e => simp only [hp, error_bind] at h; cases h
      | ok pair =>
          obtain ⟨m, logs1⟩ := pair
          simp only [hp, ok_bind] at h
          cases hps : processTopics ts with
          | error e => simp only [hps, error_bind] at h; cases h
          | ok pair2 =>
              obtain ⟨ms2, logs2⟩ := pair2
              simp only [hps, ok_bind, Except.ok.injEq, Prod.mk.injEq] at h
              obtain ⟨rfl, rfl⟩ := h
              obtain ⟨hlen, hall⟩ := ih ms2 logs2 hps
              refine ⟨by simp [hlen], ?_⟩
              intro i hi hi'
              cases i with
              | zero =>
                  exact ⟨logs1, hp, fun l hl => List.mem_append_left _ hl⟩
              | succ j =>
                  obtain ⟨logsi, hpt, hsub⟩ :=
                    hall j (by simpa using hi) (by simpa using hi')
                  exact ⟨logsi, hpt, fun l hl => List.mem_append_right _ (hsub l hl)⟩

theorem readBcfFile_ok_spec (archive : BcfArchive) (res : LoadResult) (p : Project)
    (hload : readBcfFile archive = .ok res) (hproj : res.project = some p) :
    ∃ ms tlogs, processTopics archive.topics = .ok (ms, tlogs) ∧
      p.topicList = ms ∧ (∀ l ∈ tlogs, l ∈ res.logs) := by
  unfold readBcfFile at hload
  cases hvf : archive.versionFile with
  | none =>
      rw [hvf] at hload
      simp only [Except.ok.injEq] at hload
      rw [← hload] at hproj
      cases hproj
  | some vf =>
      rw [hvf] at hload
      by_cases hvalid : vf.valid
      · simp only [hvalid, Bool.not_true, Bool.false_eq_true, if_false] at hload
        cases hv : getVersion (some vf) with
        | error e => simp only [hv, error_bind] at hload; cases hload
        | ok version =>
            simp only [hv, ok_bind] at hload
            by_cases hsupp : versionSupported version = true
            · simp only [hsupp, Bool.not_true, Bool.false_eq_true, if_false] at hload
              cases hpf : archive.projectFile with
              | none =>
                  simp only [hpf] at hload
                  cases hpt : processTopics archive.topics with
                  | error e => simp only [hpt, error_bind] at hload; cases hload
                  | ok pair =>
                      obtain ⟨ms, tlogs⟩ := pair
                      simp only [hpt, ok_bind, Except.ok.injEq] at hload
                      rw [← hload] at hproj
                      simp only [Option.some.injEq] at hproj
                      refine ⟨ms, tlogs, rfl, ?_, ?_⟩
                      · rw [← hproj]
                      · intro l hl
                        rw [← hload]
                        exact List.mem_append_right _ hl
              | some pf =>
                  simp only [hpf] at hload
                  cases hbp : buildProject pf.record with
                  | error e => simp only [hbp, error_bind] at hload; cases hload
                  | ok p0 =>
                      simp only [hbp, ok_bind] at hload
                      cases hpt : processTopics archive.topics with
                      | error e => simp only [hpt, error_bind] at hload; cases hload
                      | ok pair =>
                          obtain ⟨ms, tlogs⟩ := pair
                          simp only [hpt, ok_bind, Except.ok.injEq] at hload
                          rw [← hload] at hproj
                          simp only [Option.some.injEq] at hproj
                          refine ⟨ms, tlogs, rfl, ?_, ?_⟩
                          · rw [← hproj]
                          · intro l hl
                            rw [← hload]
                            exact List.mem_append_right _ hl
            · rw [Bool.not_eq_true _ |>.mp hsupp] at hload
              simp only [Bool.not_false, if_true, Except.ok.injEq] at hload
              rw [← hload] at hproj
              cases hproj
      · simp only [Bool.not_eq_true _ |>.mp hvalid, Bool.not_false, if_true,
                   Except.ok.injEq] at hload
        rw [← hload] at hproj
        cases hproj

theorem asPathString_ok (v : XmlValue) (s : String) (h : asPathString v = .ok s) :
    v = .str s := by
  cases v with
  | str s2 =>
      simp only [asPathString, Except.ok.injEq] at h
      rw [h]
  | null => cases h
  | bool b => cases h
  | int n => cases h
  | list xs => cases h
  | dict kvs => cases h

theorem fileUriOf_ok (f : PyVal Uri) (u : Uri) (h : fileUriOf f = .ok u) :
    f = .obj u := by
  cases f with
  | raw v => simp only [fileUriOf] at h; cases h
  | obj u2 => simp only [fileUriOf, Except.ok.injEq] at h; rw [h]

theorem attachViewpoints_ok_spec (t : TopicRecord) (refs refs' : List ViewpointReference)
    (logs : List Log) (h : attachViewpoints t refs = .ok (refs', logs)) :
    refs'.length = refs.length ∧
    ∀ j (hj : j < refs.length) (hj' : j < refs'.length),
      ∃ u s, (refs.get ⟨j, hj⟩).file = .obj u ∧ u.uri = .str s ∧
        ((∃ k, buildViewpointAt t s = .error (.keyError k) ∧
               refs'.get ⟨j, hj'⟩ = refs.get ⟨j, hj⟩ ∧
               Log.viewpointSkipped k t.name u.uri ∈ logs) ∨
         (∃ vp, buildViewpointAt t s = .ok vp ∧
               refs'.get ⟨j, hj'⟩ = { refs.get ⟨j, hj⟩ with viewpoint := some vp })) := by
  induction refs generalizing refs' logs with
  | nil =>
      unfold attachViewpoints at h
      simp only [Except.ok.injEq, Prod.mk.injEq] at h
      obtain ⟨rfl, rfl⟩ := h
      exact ⟨rfl, fun j hj => absurd hj (by simp)⟩
  | cons r rest ih =>
      unfold attachViewpoints at h
      cases hfo : fileUriOf r.file with
      | error e => simp only [hfo, error_bind] at h; cases h
      | ok u =>
          have hf : r.file = .obj u := fileUriOf_ok _ _ hfo
          simp only [hfo, ok_bind] at h
          cases hpath : asPathString u.uri with
          | error e => simp only [hpath, error_bind] at h; cases h
          | ok s =>
              have hu : u.uri = .str s := asPathString_ok _ _ hpath
              simp only [hpath, ok_bind] at h
              cases hb : buildViewpointAt t s with
              | ok vp =>
                  simp only [hb] at h
                  cases har : attachViewpoints t rest with
                  | error e2 => simp only [har, error_bind] at h; cases h
                  | ok pair =>
                      obtain ⟨rest', logs'⟩ := pair
                      simp only [har, ok_bind, Except.ok.injEq, Prod.mk.injEq] at h
                      obtain ⟨hrefs, hlogs⟩ := h
                      subst hrefs
                      subst hlogs
                      obtain ⟨hlen, hall⟩ := ih rest' logs' har
                      refine ⟨by simp [hlen], ?_⟩
                      intro j hj hj'
                      cases j with
                      | zero =>
                          exact ⟨u, s, hf, hu, Or.inr ⟨vp, hb, rfl⟩⟩
                      | succ i =>
                          obtain ⟨u2, s2, hf2, hu2, hcase⟩ :=
                            hall i (by simpa using hj) (by simpa using hj')
                          exact ⟨u2, s2, hf2, hu2, hcase⟩
              | error e =>
                  cases e with
                  | keyError k =>
                      simp only [hb] at h
                      cases har : attachViewpoints t rest with
                      | error e2 => simp only [har, error_bind] at h; cases h
                      | ok pair =>
                          obtain ⟨rest', logs'⟩ := pair
                          simp only [har, ok_bind, Except.ok.injEq, Prod.mk.injEq] at h
                          obtain ⟨hrefs, hlogs⟩ := h
                          subst hrefs
                          subst hlogs
                          obtain ⟨hlen, hall⟩ := ih rest' logs' har
                          refine ⟨by simp [hlen], ?_⟩
                          intro j hj hj'
                          cases j with
                          | zero =>
                              exact ⟨u, s, hf, hu,
                                Or.inl ⟨k, hb, rfl, List.mem_cons_self _ _⟩⟩
                          | succ i =>
                              obtain ⟨u2, s2, hf2, hu2, hcase⟩ :=
                                hall i (by simpa using hj) (by simpa using hj')
                              refine ⟨u2, s2, hf2, hu2, ?_⟩
                              cases hcase with
                              | inl hskip =>
                                  obtain ⟨k2, hb2, heq2, hmem2⟩ := hskip
                                  exact Or.inl ⟨k2, hb2, heq2,
                                    List.mem_cons_of_mem _ hmem2⟩
                              | inr hok => exact Or.inr hok
                  | valueError m => simp only [hb] at h; cases h
                  | typeError m => simp only [hb] at h; cases h
                  | attributeError m => simp only [hb] at h; cases h
                  | osError m => simp only [hb] at h; cases h

theorem buildViewpointReference_viewpoint_none (d : XmlValue) (r : ViewpointReference)
    (h : buildViewpointReference d = .ok r) : r.viewpoint = none := by
  simp only [buildViewpointReference, bind_ok_iff, Except.ok.injEq] at h
  obtain ⟨idV, h1, id, h2, hfin⟩ := h
  subst hfin
  rfl

theorem buildMarkup_viewpoints_unresolved (md : XmlValue) (m : Markup)
    (h : buildMarkup md = .ok m) : ∀ r ∈ m.viewpoints, r.viewpoint = none := by
  simp only [buildMarkup, bind_ok_iff, Except.ok.injEq] at h
  obtain ⟨comments, hcom, topicDict, htd, topic, htopic, header, hheader,
          viewpoints, hvps, hfin⟩ := h
  subst hfin
  intro r hr
  simp only [buildViewpointRefList, bind_ok_iff] at hvps
  obtain ⟨ds, hds, hmap⟩ := hvps
  obtain ⟨d, hd, hbuild⟩ := mapExcept_ok_mem _ _ _ hmap r hr
  exact buildViewpointReference_viewpoint_none d r hbuild

/-! ## Claim C3: a markup without its mandatory Topic -/

/-- A markup record lacking its mandatory `Topic` element. -/
def badMarkupDict : XmlValue := .dict [("Comment", .list [])]

/-- An archive with a supported version and two topic directories, the
first of whose markups lacks its `Topic` element and the second of which is
fine. -/
def cexMissingTopicArchive : BcfArchive :=
  ⟨some ⟨true, .dict [("@VersionId", .str "2.1")]⟩, none,
   [⟨"topic-1", true, badMarkupDict, []⟩,
    ⟨"topic-2", true, .dict [("Topic", minimalTopicDict)], []⟩]⟩

/-- C3 counterexample: when one topic directory's markup lacks its
mandatory `Topic` element, the `KeyError` escapes `readBcfFile` — the load
of the remaining topic directory does not continue and no project for the
rest of the archive is returned. -/
theorem readBcfFile_missing_topic_aborts_cex :
    readBcfFile cexMissingTopicArchive = .error (.keyError "Topic") ∧
    ∀ res : LoadResult, readBcfFile cexMissingTopicArchive ≠ .ok res := by
  refine ⟨rfl, ?_⟩
  intro res hres
  rw [show readBcfFile cexMissingTopicArchive = .error (.keyError "Topic") from rfl] at hres
  cases hres

/-- C3 amended: a markup record that lacks its mandatory `Topic` element
(once its comment list has built) makes `buildMarkup` fail with the
`KeyError` for `Topic`, and `readBcfFile` has no handler around
`buildMarkup`: whenever a load returns a project at all, every topic
directory's markup record built successfully — so a load containing such a
record aborts whole, rather than skipping only that topic-markup. -/
theorem missingTopic_aborts_load :
    (∀ (kvs : List (String × XmlValue)) (comments : List Comment),
       buildCommentList (.dict kvs) = .ok comments →
       hasKey (.dict kvs) "Topic" = false →
       buildMarkup (.dict kvs) = .error (.keyError "Topic")) ∧
    (∀ (archive : BcfArchive) (res : LoadResult) (p : Project),
       readBcfFile archive = .ok res → res.project = some p →
       ∀ t ∈ archive.topics, ∃ m, buildMarkup t.markupRecord = .ok m) := by
  constructor
  · intro kvs comments hcom habs
    have hlook : lookupKey kvs "Topic" = none := by
      cases hl : lookupKey kvs "Topic" with
      | none => rfl
      | some v => simp [hasKey, hl] at habs
    unfold buildMarkup
    rw [hcom, ok_bind, getItem_dict_absent kvs "Topic" hlook, error_bind]
  · intro archive res p hload hproj t ht
    obtain ⟨ms, tlogs, hpt, hplist, hsub⟩ := readBcfFile_ok_spec archive res p hload hproj
    obtain ⟨hmslen, hper⟩ := processTopics_ok_spec _ _ _ hpt
    obtain ⟨⟨i, hi⟩, hget⟩ := List.mem_iff_get.mp ht
    obtain ⟨logsi, hptop, _⟩ := hper i hi (by rw [hmslen]; exact hi)
    obtain ⟨m, vps, vplogs, hbm, _, _, _⟩ := processTopic_ok_spec _ _ _ hptop
    rw [hget] at hbm
    exact ⟨m, hbm⟩

/-- The built value of the one healthy topic of the witness archive. -/
def wGoodTopicRecord : TopicRecord :=
  ⟨"topic-2", true, .dict [("Topic", minimalTopicDict)], []⟩

/-- An archive with a supported version and only the healthy topic. -/
def wGoodArchive : BcfArchive :=
  ⟨some ⟨true, .dict [("@VersionId", .str "2.1")]⟩, none, [wGoodTopicRecord]⟩

/-- The topic entity built from `minimalTopicDict`. -/
def wTopic : Topic :=
  ⟨"22222222-2222-2222-2222-222222222222", .str "topic title",
   "2014-10-16T14:35:29+00:00", .str "author", .str "", .str "", .list [],
   [], .str "", .int (-1), .list [], .raw .null, .str "", .raw .null,
   .str "", .str "", .str "", [], none⟩

/-- The project the witness archive loads into. -/
def wGoodProject : Project :=
  { xmlId := zeroUUID, name := .str "", extSchemaSrc := .null,
    topicList := [⟨wTopic, none, [], []⟩] }

def wGoodRes : LoadResult := ⟨some wGoodProject, []⟩

/-- C3 witness: the amended statement evaluated on the bad markup record
and on a load that succeeds. -/
theorem missingTopic_aborts_load_witness :
    buildMarkup badMarkupDict = .error (.keyError "Topic") ∧
    (∃ m, buildMarkup wGoodTopicRecord.markupRecord = .ok m) :=
  ⟨missingTopic_aborts_load.1 [("Comment", .list [])] [] rfl rfl,
   missingTopic_aborts_load.2 wGoodArchive wGoodRes wGoodProject rfl rfl
     wGoodTopicRecord (List.mem_cons_self _ _)⟩

theorem get_congr {α : Type} (l l' : List α) (h : l = l') (i : Nat)
    (hi : i < l.length) (hi' : i < l'.length) : l.get ⟨i, hi⟩ = l'.get ⟨i, hi'⟩ := by
  subst h
  rfl

/-! ## Claim C5: a per-viewpoint build failure skips only that viewpoint -/

/-- C5: whenever a load returns a project, every topic directory's markup
was built; per topic, the markup's topic survives unchanged and its
viewpoint-reference list keeps its length, and for each reference — whose
file locator must have been a proper string path — either building its
viewpoint document failed with a missing-required-field (`KeyError`) error,
in which case exactly that reference is left untouched with no resolved
`Viewpoint` attached and the skip is logged with the erring key, the topic
directory and the viewpoint file identified, or the build succeeded and the
viewpoint is attached to its reference; all other viewpoints and topics
load normally. -/
theorem readBcfFile_skips_failing_viewpoints (archive : BcfArchive) (res : LoadResult)
    (p : Project) (hload : readBcfFile archive = .ok res) (hproj : res.project = some p) :
    p.topicList.length = archive.topics.length ∧
    ∀ i (hi : i < archive.topics.length) (hip : i < p.topicList.length),
      ∃ m, buildMarkup ((archive.topics.get ⟨i, hi⟩).markupRecord) = .ok m ∧
        (p.topicList.get ⟨i, hip⟩).topic = m.topic ∧
        (p.topicList.get ⟨i, hip⟩).viewpoints.length = m.viewpoints.length ∧
        ∀ j (hj : j < m.viewpoints.length)
            (hj' : j < (p.topicList.get ⟨i, hip⟩).viewpoints.length),
          ∃ u s, (m.viewpoints.get ⟨j, hj⟩).file = .obj u ∧ u.uri = .str s ∧
            ((∃ k, buildViewpointAt (archive.topics.get ⟨i, hi⟩) s = .error (.keyError k) ∧
                   (p.topicList.get ⟨i, hip⟩).viewpoints.get ⟨j, hj'⟩ =
                     m.viewpoints.get ⟨j, hj⟩ ∧
                   ((p.topicList.get ⟨i, hip⟩).viewpoints.get ⟨j, hj'⟩).viewpoint = none ∧
                   Log.viewpointSkipped k (archive.topics.get ⟨i, hi⟩).name u.uri ∈ res.logs) ∨
             (∃ vp, buildViewpointAt (archive.topics.get ⟨i, hi⟩) s = .ok vp ∧
                   (p.topicList.get ⟨i, hip⟩).viewpoints.get ⟨j, hj'⟩ =
                     { m.viewpoints.get ⟨j, hj⟩ with viewpoint := some vp })) := by
  obtain ⟨ms, tlogs, hpt, hplist, hsub⟩ := readBcfFile_ok_spec archive res p hload hproj
  subst hplist
  obtain ⟨hmslen, hper⟩ := processTopics_ok_spec _ _ _ hpt
  refine ⟨hmslen, ?_⟩
  intro i hi hip
  obtain ⟨logsi, hptop, hlogsi⟩ := hper i hi hip
  obtain ⟨m, vps, vplogs, hbm, hatt, hmk, hvl⟩ := processTopic_ok_spec _ _ _ hptop
  obtain ⟨hlenvps, hallj⟩ := attachViewpoints_ok_spec _ _ _ _ hatt
  have hvget : (p.topicList.get ⟨i, hip⟩).viewpoints = vps := by rw [hmk]
  refine ⟨m, hbm, by rw [hmk], by rw [hvget, hlenvps], ?_⟩
  intro j hj hj'
  have hj'' : j < vps.length := by rw [← hvget]; exact hj'
  have hgj : (p.topicList.get ⟨i, hip⟩).viewpoints.get ⟨j, hj'⟩ = vps.get ⟨j, hj''⟩ :=
    get_congr _ _ hvget j hj' hj''
  obtain ⟨u, s, hf, hu, hcase⟩ := hallj j hj hj''
  refine ⟨u, s, hf, hu, ?_⟩
  cases hcase with
  | inl hskip =>
      obtain ⟨k, hb, heq, hmem⟩ := hskip
      refine Or.inl ⟨k, hb, ?_, ?_, ?_⟩
      · rw [hgj]
        exact heq
      · rw [hgj, heq]
        exact buildMarkup_viewpoints_unresolved _ _ hbm _ (List.get_mem _ _ _)
      · exact hsub _ (hlogsi _ (hvl _ hmem))
  | inr hok =>
      obtain ⟨vp, hb, heq⟩ := hok
      refine Or.inr ⟨vp, hb, ?_⟩
      rw [hgj]
      exact heq

/-- A viewpoint reference whose document will fail to build. -/
def wVpRefDictA : XmlValue :=
  .dict [("@Guid", .str "aaaa1111-1111-1111-1111-111111111111"),
         ("Viewpoint", .str "a.bcfv")]

/-- A viewpoint reference whose document builds fine. -/
def wVpRefDictB : XmlValue :=
  .dict [("@Guid", .str "bbbb2222-2222-2222-2222-222222222222"),
         ("Viewpoint", .str "b.bcfv")]

/-- A viewpoint document lacking its mandatory `@Guid`. -/
def wBadViewpointRecord : XmlValue := .dict [("CameraViewPoint", .dict [])]

def wGoodViewpointRecord : XmlValue :=
  .dict [("@Guid", .str "cccc3333-3333-3333-3333-333333333333")]

def wSkipTopicRecord : TopicRecord :=
  ⟨"topic-skip", true,
   .dict [("Topic", minimalTopicDict),
          ("Viewpoints", .list [wVpRefDictA, wVpRefDictB])],
   [("a.bcfv", wBadViewpointRecord), ("b.bcfv", wGoodViewpointRecord)]⟩

def wSkipArchive : BcfArchive :=
  ⟨some ⟨true, .dict [("@VersionId", .str "2.1")]⟩, none, [wSkipTopicRecord]⟩

/-- The project the skipping load yields: the first reference untouched,
the second with its viewpoint attached. -/
def wSkipProject : Project :=
  { xmlId := zeroUUID, name := .str "", extSchemaSrc := .null,
    topicList := [⟨wTopic, none, [],
      [⟨"aaaa1111-1111-1111-1111-111111111111", .obj ⟨.str "a.bcfv"⟩,
        .raw .null, .int (-1), none⟩,
       ⟨"bbbb2222-2222-2222-2222-222222222222", .obj ⟨.str "b.bcfv"⟩,
        .raw .null, .int (-1),
        some ⟨"cccc3333-3333-3333-3333-333333333333", none, none, none, [], [], []⟩⟩]⟩] }

def wSkipRes : LoadResult :=
  ⟨some wSkipProject, [.viewpointSkipped "@Guid" "topic-skip" (.str "a.bcfv")]⟩

/-- C5 witness: the skipping statement evaluated on a concrete archive with
one failing and one healthy viewpoint. -/
theorem readBcfFile_skips_failing_viewpoints_witness :
    wSkipProject.topicList.length = wSkipArchive.topics.length ∧
    ∀ i (hi : i < wSkipArchive.topics.length) (hip : i < wSkipProject.topicList.length),
      ∃ m, buildMarkup ((wSkipArchive.topics.get ⟨i, hi⟩).markupRecord) = .ok m ∧
        (wSkipProject.topicList.get ⟨i, hip⟩).topic = m.topic ∧
        (wSkipProject.topicList.get ⟨i, hip⟩).viewpoints.length = m.viewpoints.length ∧
        ∀ j (hj : j < m.viewpoints.length)
            (hj' : j < (wSkipProject.topicList.get ⟨i, hip⟩).viewpoints.length),
          ∃ u s, (m.viewpoints.get ⟨j, hj⟩).file = .obj u ∧ u.uri = .str s ∧
            ((∃ k, buildViewpointAt (wSkipArchive.topics.get ⟨i, hi⟩) s =
                     .error (.keyError k) ∧
                   (wSkipProject.topicList.get ⟨i, hip⟩).viewpoints.get ⟨j, hj'⟩ =
                     m.viewpoints.get ⟨j, hj⟩ ∧
                   ((wSkipProject.topicList.get ⟨i, hip⟩).viewpoints.get ⟨j, hj'⟩).viewpoint
                     = none ∧
                   Log.viewpointSkipped k (wSkipArchive.topics.get ⟨i, hi⟩).name u.uri
                     ∈ wSkipRes.logs) ∨
             (∃ vp, buildViewpointAt (wSkipArchive.topics.get ⟨i, hi⟩) s = .ok vp ∧
                   (wSkipProject.topicList.get ⟨i, hip⟩).viewpoints.get ⟨j, hj'⟩ =
                     { m.viewpoints.get ⟨j, hj⟩ with viewpoint := some vp })) :=
  readBcfFile_skips_failing_viewpoints wSkipArchive wSkipRes wSkipProject rfl rfl
